import Mathlib

set_option maxRecDepth 4000

/-!
Shallow embedding of the trading control plane (risk manager, strategy,
exchange client, order manager) of the repository under verification.
Python floats are modelled as exact rationals; where the exact IEEE-754
double behaviour matters (price-to-cents conversion) the binary64
rounding is modelled explicitly.  Transcendental library calls
(numpy log and sqrt, scipy normal cdf) are abstracted as an oracle of
rational functions, since their float implementations live outside the
repository; every gate, branch and arithmetic step of the repository
code itself is translated literally.
-/

/-! ## Generic numeric helpers -/

/-- Python builtin round: round half to even (banker's rounding). -/
def pyRound (q : ℚ) : ℤ :=
  let f := ⌊q⌋
  let r := q - (f : ℚ)
  if r < 1/2 then f
  else if 1/2 < r then f + 1
  else if f % 2 = 0 then f else f + 1

/-- Floor of log2 for q ≥ 1, as the number of halvings until the value
drops below 2 (fuel-bounded so that proofs can evaluate it; 64 covers
every magnitude this program handles). -/
def log2Up : ℕ → ℚ → ℕ
  | 0, _ => 0
  | fuel + 1, q => if 2 ≤ q then log2Up fuel (q / 2) + 1 else 0

/-- Negated floor of log2 for 0 < q < 1: doublings needed to reach 1. -/
def log2Down : ℕ → ℚ → ℕ
  | 0, _ => 0
  | fuel + 1, q => if q < 1 then log2Down fuel (2 * q) + 1 else 0

/-- Round a rational to the nearest IEEE-754 binary64 value (ties to even):
scale the magnitude into [2^52, 2^53), round, and scale back.  Subnormals
and overflow are outside the range this program handles and are not
modelled. -/
def roundF64 (q : ℚ) : ℚ :=
  if q = 0 then 0
  else
    let a := |q|
    let mag :=
      if 1 ≤ a then
        let e := log2Up 64 a
        if e ≤ 52 then (pyRound (a * 2 ^ (52 - e)) : ℚ) / 2 ^ (52 - e)
        else (pyRound (a / 2 ^ (e - 52)) : ℚ) * 2 ^ (e - 52)
      else
        let e := log2Down 64 a
        (pyRound (a * 2 ^ (52 + e)) : ℚ) / 2 ^ (52 + e)
    if q < 0 then -mag else mag

/-- Correctly rounded binary64 product of two doubles. -/
def f64mul (x y : ℚ) : ℚ := roundF64 (x * y)

/-- round(price * 100) of kalshi_client.place_order: the float product of
the price double with 100, rounded by Python round (half to even). -/
def price_to_cents (p : ℚ) : ℤ := pyRound (f64mul p 100)

/-- Round to two decimal places, as the float("%.2f") helpers do. -/
def round2 (q : ℚ) : ℚ := (pyRound (q * 100) : ℚ) / 100

/-- Membership of one character list inside another (Python "a in b"). -/
def charsContain (needle : List Char) : List Char → Bool
  | [] => needle.isEmpty
  | c :: rest => List.isPrefixOf needle (c :: rest) || charsContain needle rest

/-- Python substring test: needle in hay. -/
def strContains (needle hay : String) : Bool :=
  charsContain needle.toList hay.toList

/-- Mean of a list of rationals (numpy mean; callers guard nonempty). -/
def listMean (l : List ℚ) : ℚ := l.sum / (l.length : ℚ)

/-- Successive differences, numpy diff. -/
def listDiff : List ℚ → List ℚ
  | [] => []
  | [_] => []
  | a :: b :: rest => (b - a) :: listDiff (b :: rest)

/-! ## Risk manager: data model
Translated from src/backend/trading_engine/risk_manager.py and
src/backend/models/{trade,config}.py. -/

inductive TradeStatus
  | pending | submitted | filled | partially_filled | cancelled | rejected | failed
  deriving DecidableEq, Repr

inductive TradeSide
  | yes | no
  deriving DecidableEq, Repr

inductive OrderType
  | market | limit
  deriving DecidableEq, Repr

/-- Trade model (models/trade.py); floats are rationals, datetimes are
integer timestamps. -/
structure Trade where
  trade_id : Option String := none
  order_id : Option String := none
  ticker : String
  side : TradeSide
  order_type : OrderType := .limit
  quantity : ℕ
  price : Option ℚ := none
  status : TradeStatus := .pending
  filled_quantity : ℕ := 0
  average_fill_price : Option ℚ := none
  cost : Option ℚ := none
  pnl : Option ℚ := none
  strategy_name : String
  edge : Option ℚ := none
  confidence : Option ℚ := none
  kelly_fraction : Option ℚ := none
  dry_run : Bool := true
  created_at : ℤ := 0
  submitted_at : Option ℤ := none
  filled_at : Option ℤ := none
  cancelled_at : Option ℤ := none
  notes : Option String := none
  deriving DecidableEq, Repr

/-- Position model (models/trade.py). -/
structure Position where
  ticker : String
  side : TradeSide
  quantity : ℕ
  average_entry_price : ℚ
  current_price : Option ℚ := none
  unrealized_pnl : Option ℚ := none
  entry_time : ℤ
  last_updated : ℤ := 0
  max_loss : ℚ
  max_gain : ℚ
  deriving DecidableEq, Repr

/-- Position.calculate_pnl. -/
def Position.calculate_pnl (pos : Position) (current_price : ℚ) : ℚ :=
  if pos.side = TradeSide.yes then
    (current_price - pos.average_entry_price) * pos.quantity
  else
    (pos.average_entry_price - current_price) * pos.quantity

/-- RiskConfig (models/config.py) with its pydantic defaults. -/
structure RiskConfig where
  max_position_size : ℚ := 1000
  max_daily_loss : ℚ := 500
  max_concurrent_positions : ℕ := 5
  circuit_breaker_loss_threshold : ℚ := 5/100
  weekly_drawdown_cap : ℚ := 10/100
  circuit_breaker_drawdown_threshold : ℚ := 15/100
  position_ceiling_pct : ℚ := 2/100
  min_edge_threshold : ℚ := 2/100
  uncertainty_buffer : ℚ := 3/100
  deriving DecidableEq, Repr

/-- RiskMetrics dataclass (risk_manager.py). -/
structure RiskMetrics where
  total_positions : ℕ := 0
  open_orders_count : ℕ := 0
  total_exposure : ℚ := 0
  daily_pnl : ℚ := 0
  daily_loss : ℚ := 0
  unrealized_pnl : ℚ := 0
  realized_pnl : ℚ := 0
  max_drawdown : ℚ := 0
  current_drawdown : ℚ := 0
  weekly_drawdown : ℚ := 0
  win_rate : ℚ := 0
  ev_per_trade : ℚ := 0
  circuit_breaker_triggered : Bool := false
  circuit_breaker_reason : String := ""
  exposure_per_market : List (String × ℚ) := []
  last_updated : ℤ := 0
  deriving DecidableEq, Repr

/-- Mutable state of a RiskManager instance.  Dates are UTC day numbers
(day 0 = 1970-01-01, a Thursday). -/
structure RiskState where
  config : RiskConfig
  bankroll : ℚ
  all_trades : List Trade := []
  positions : List (String × Position) := []
  daily_date : ℤ
  daily_realized_pnl : ℚ := 0
  weekly_start_date : ℤ
  weekly_start_equity : ℚ
  weekly_peak_equity : ℚ
  session_start_equity : ℚ
  session_peak_equity : ℚ
  circuit_breaker_active : Bool := false
  circuit_breaker_triggered_at : Option ℤ := none
  circuit_breaker_reason : String := ""
  metrics : RiskMetrics := {}
  deriving DecidableEq, Repr

/-- Structured refusal reasons of the seven gates; each constructor
carries the data interpolated into the corresponding Python message. -/
inductive GateReason
  | circuitBreaker (stored_reason : String)
  | positionCeiling (position_value ceiling : ℚ)
  | maxPositions (max_concurrent : ℕ)
  | dailyLoss (loss cap : ℚ)
  | weeklyDrawdown (drawdown cap : ℚ)
  | totalExposure (would_be limit : ℚ)
  | duplicatePosition (ticker : String)
  deriving DecidableEq, Repr

/-! ## Risk manager: operations -/

/-- Python date.weekday: Monday = 0.  Day 0 (1970-01-01) is a Thursday. -/
def weekdayOf (d : ℤ) : ℤ := (d + 3) % 7

/-- RiskManager._current_week_monday. -/
def currentWeekMonday (today : ℤ) : ℤ := today - weekdayOf today

def layer1ReasonTag : String := "Layer-1"
def layer2ReasonTag : String := "Layer-2"

/-- Reason strings passed to trigger_circuit_breaker by
_check_circuit_breakers; the numeric interpolations of the f-strings are
elided, the layer tags tested by the rollover logic are kept. -/
def layer1Reason : String := "Layer-1 daily loss breach"
def layer2Reason : String := "Layer-2 weekly drawdown breach"
def layer3Reason : String := "Layer-3 session drawdown breach"

/-- RiskManager.trigger_circuit_breaker. -/
def trigger_circuit_breaker (st : RiskState) (now : ℤ) (reason : String) : RiskState :=
  if st.circuit_breaker_active then st
  else
    { st with
      circuit_breaker_active := true
      circuit_breaker_triggered_at := some now
      circuit_breaker_reason := reason
      metrics := { st.metrics with
                   circuit_breaker_triggered := true
                   circuit_breaker_reason := reason } }

/-- RiskManager.reset_circuit_breaker. -/
def reset_circuit_breaker (st : RiskState) : RiskState :=
  if st.circuit_breaker_active then
    { st with
      circuit_breaker_active := false
      circuit_breaker_triggered_at := none
      circuit_breaker_reason := ""
      metrics := { st.metrics with
                   circuit_breaker_triggered := false
                   circuit_breaker_reason := "" } }
  else st

/-- RiskManager._maybe_reset_daily. -/
def maybe_reset_daily (st : RiskState) (today : ℤ) : RiskState :=
  if st.daily_date < today then
    let st := { st with daily_date := today, daily_realized_pnl := 0 }
    if st.circuit_breaker_active && strContains layer1ReasonTag st.circuit_breaker_reason then
      reset_circuit_breaker st
    else st
  else st

/-- RiskManager._maybe_reset_weekly. -/
def maybe_reset_weekly (st : RiskState) (today : ℤ) : RiskState :=
  let monday := currentWeekMonday today
  if st.weekly_start_date < monday then
    let eq := st.session_start_equity + st.daily_realized_pnl
    let st := { st with
                weekly_start_date := monday
                weekly_start_equity := eq
                weekly_peak_equity := eq }
    if st.circuit_breaker_active && strContains layer2ReasonTag st.circuit_breaker_reason then
      reset_circuit_breaker st
    else st
  else st

/-- RiskManager._compute_weekly_drawdown (updates the weekly peak). -/
def compute_weekly_drawdown (st : RiskState) : RiskState × ℚ :=
  if st.weekly_peak_equity ≤ 0 then (st, 0)
  else
    let current_equity := st.session_start_equity + st.daily_realized_pnl
    let peak := if st.weekly_peak_equity < current_equity then current_equity
                else st.weekly_peak_equity
    let st := { st with weekly_peak_equity := peak }
    (st, max 0 ((peak - current_equity) / peak))

/-- Total exposure, the sum in gate 6 and in _recompute_metrics. -/
def totalExposure (positions : List (String × Position)) : ℚ :=
  (positions.map (fun p => (p.2.quantity : ℚ) * p.2.average_entry_price)).sum

/-- RiskManager.check_trade_allowed: the seven-gate admission test.
Returns the updated state together with (allowed, refusal reason). -/
def check_trade_allowed (st0 : RiskState) (today : ℤ) (ticker : String)
    (quantity : ℕ) (price : ℚ) : RiskState × (Bool × Option GateReason) :=
  let st := maybe_reset_weekly (maybe_reset_daily st0 today) today
  let position_value := (quantity : ℚ) * price
  -- Gate 1: circuit breaker (latching)
  if st.circuit_breaker_active then
    (st, (false, some (GateReason.circuitBreaker st.circuit_breaker_reason)))
  else
    -- Gate 2: position ceiling
    let ceiling := st.bankroll * st.config.position_ceiling_pct
    if ceiling < position_value then
      (st, (false, some (GateReason.positionCeiling position_value ceiling)))
    else if st.config.max_concurrent_positions ≤ st.positions.length then
      -- Gate 3: concurrent positions
      (st, (false, some (GateReason.maxPositions st.config.max_concurrent_positions)))
    else
      -- Gate 4: daily loss cap
      let daily_loss_cap := st.bankroll * st.config.circuit_breaker_loss_threshold
      if st.daily_realized_pnl < 0 ∧ daily_loss_cap ≤ |st.daily_realized_pnl| then
        (st, (false, some (GateReason.dailyLoss |st.daily_realized_pnl| daily_loss_cap)))
      else
        -- Gate 5: weekly drawdown cap
        let wd := compute_weekly_drawdown st
        let st := wd.1
        if st.config.weekly_drawdown_cap ≤ wd.2 then
          (st, (false, some (GateReason.weeklyDrawdown wd.2 st.config.weekly_drawdown_cap)))
        else
          -- Gate 6: total portfolio exposure
          let current_exposure := totalExposure st.positions
          let max_exposure := ceiling * (st.config.max_concurrent_positions : ℚ)
          if max_exposure < current_exposure + position_value then
            (st, (false, some (GateReason.totalExposure (current_exposure + position_value) max_exposure)))
          else if (st.positions.lookup ticker).isSome then
            -- Gate 7: per-market duplicate
            (st, (false, some (GateReason.duplicatePosition ticker)))
          else
            (st, (true, none))

/-- RiskManager.validate_signal_edge. -/
def validate_signal_edge (cfg : RiskConfig) (edge confidence : ℚ) : Bool :=
  let min_edge := cfg.min_edge_threshold + cfg.uncertainty_buffer
  if |edge| < min_edge then false
  else if confidence < 1/2 then false
  else true

/-- RiskManager._update_position_from_fill. -/
def update_position_from_fill (st : RiskState) (now : ℤ) (trade : Trade) : RiskState :=
  let qty := trade.filled_quantity
  let avg_price := (trade.average_fill_price.getD (trade.price.getD 0))
  if qty = 0 then st
  else
    match st.positions.lookup trade.ticker with
    | none =>
        let pos : Position :=
          { ticker := trade.ticker
            side := trade.side
            quantity := qty
            average_entry_price := avg_price
            entry_time := trade.filled_at.getD now
            max_loss := (qty : ℚ) * avg_price
            max_gain := (qty : ℚ) * (1 - avg_price) }
        { st with positions := st.positions ++ [(trade.ticker, pos)] }
    | some pos =>
        let total_qty := pos.quantity + qty
        let pos := { pos with
                     average_entry_price :=
                       (pos.average_entry_price * pos.quantity + avg_price * qty) / (total_qty : ℚ)
                     quantity := total_qty
                     last_updated := now }
        { st with positions := (st.positions.map
            (fun p => if p.1 = trade.ticker then (trade.ticker, pos) else p)) }

/-- RiskManager._check_circuit_breakers. -/
def check_circuit_breakers (st : RiskState) (now : ℤ) : RiskState :=
  if st.circuit_breaker_active then st
  else
    -- Layer 1: daily loss
    if 0 < st.bankroll ∧ st.metrics.daily_loss < 0 ∧
        st.config.circuit_breaker_loss_threshold ≤ |st.metrics.daily_loss| / st.bankroll then
      trigger_circuit_breaker st now layer1Reason
    -- Layer 2: weekly drawdown
    else if st.config.weekly_drawdown_cap ≤ st.metrics.weekly_drawdown then
      trigger_circuit_breaker st now layer2Reason
    -- Layer 3: session drawdown
    else if st.config.circuit_breaker_drawdown_threshold ≤ st.metrics.current_drawdown then
      trigger_circuit_breaker st now layer3Reason
    else st

/-- RiskManager._recompute_metrics. -/
def recompute_metrics (st : RiskState) (now : ℤ) : RiskState :=
  let total_exposure := totalExposure st.positions
  let unrealized := (st.positions.map (fun p => p.2.unrealized_pnl.getD 0)).sum
  let exposure_per_market :=
    st.positions.map (fun p => (p.1, round2 ((p.2.quantity : ℚ) * p.2.average_entry_price)))
  let daily_pnl := st.daily_realized_pnl + unrealized
  let daily_loss := min 0 daily_pnl
  let current_equity := st.session_start_equity + daily_pnl
  let session_peak := if st.session_peak_equity < current_equity then current_equity
                      else st.session_peak_equity
  let st := { st with session_peak_equity := session_peak }
  let session_drawdown := if 0 < session_peak then (session_peak - current_equity) / session_peak
                          else 0
  let wd := compute_weekly_drawdown st
  let st := wd.1
  let closed_filled := st.all_trades.filter
    (fun t => t.status = TradeStatus.filled && t.pnl.isSome)
  let win_rate := if closed_filled.length = 0 then 0
    else ((closed_filled.filter (fun t => 0 < t.pnl.getD 0)).length : ℚ) / closed_filled.length
  let ev_per_trade := if closed_filled.length = 0 then 0
    else (closed_filled.map (fun t => t.pnl.getD 0)).sum / closed_filled.length
  let st := { st with metrics :=
    { total_positions := st.positions.length
      open_orders_count := st.metrics.open_orders_count
      total_exposure := total_exposure
      daily_pnl := daily_pnl
      daily_loss := daily_loss
      unrealized_pnl := unrealized
      realized_pnl := st.daily_realized_pnl
      max_drawdown := max st.metrics.max_drawdown session_drawdown
      current_drawdown := session_drawdown
      weekly_drawdown := wd.2
      win_rate := win_rate
      ev_per_trade := ev_per_trade
      circuit_breaker_triggered := st.circuit_breaker_active
      circuit_breaker_reason := st.circuit_breaker_reason
      exposure_per_market := exposure_per_market
      last_updated := now } }
  check_circuit_breakers st now

/-- RiskManager.record_trade. -/
def record_trade (st : RiskState) (now today : ℤ) (trade : Trade) : RiskState :=
  let st := maybe_reset_weekly (maybe_reset_daily st today) today
  let st := { st with all_trades := st.all_trades ++ [trade] }
  let st :=
    if trade.status = TradeStatus.filled || trade.status = TradeStatus.partially_filled then
      let st := update_position_from_fill st now trade
      match trade.pnl with
      | some p => { st with daily_realized_pnl := st.daily_realized_pnl + p }
      | none => st
    else st
  recompute_metrics st now

/-- RiskManager.set_open_orders_count. -/
def set_open_orders_count (st : RiskState) (count : ℕ) : RiskState :=
  { st with metrics := { st.metrics with open_orders_count := count } }

/-- RiskManager.close_position. -/
def close_position (st : RiskState) (now : ℤ) (ticker : String) (exit_pnl : ℚ) : RiskState :=
  if (st.positions.lookup ticker).isSome then
    let st := { st with
                positions := st.positions.filter (fun p => p.1 ≠ ticker)
                daily_realized_pnl := st.daily_realized_pnl + exit_pnl }
    recompute_metrics st now
  else st

/-! ## Market data model (models/market.py) -/

inductive MarketStatus
  | open | active | closed | settled | suspended
  deriving DecidableEq, Repr

/-- Market model; datetimes are epoch seconds (rationals), prices are
rationals in [0,1]. -/
structure Market where
  ticker : String
  event_ticker : String := ""
  title : String := ""
  strike_price : ℚ
  direction : String := "up"
  window_start : ℚ
  window_end : ℚ
  close_time : ℚ
  expiration_time : ℚ
  status : MarketStatus := .open
  yes_price : Option ℚ := none
  no_price : Option ℚ := none
  yes_bid : Option ℚ := none
  yes_ask : Option ℚ := none
  no_bid : Option ℚ := none
  no_ask : Option ℚ := none
  volume : ℕ := 0
  deriving DecidableEq, Repr

/-- Market.is_tradeable at time now. -/
def Market.is_tradeable (m : Market) (now : ℚ) : Bool :=
  (m.status = MarketStatus.open || m.status = MarketStatus.active) && now < m.close_time

/-- Market.time_remaining at time now (seconds until window end, floored at 0). -/
def Market.time_remaining (m : Market) (now : ℚ) : ℚ :=
  max 0 (m.window_end - now)

/-- One level of the orderbook. -/
structure OrderbookLevel where
  price : ℚ
  size : ℕ
  side : String
  deriving DecidableEq, Repr

structure Orderbook where
  ticker : String
  yes_bids : List OrderbookLevel := []
  yes_asks : List OrderbookLevel := []
  no_bids : List OrderbookLevel := []
  no_asks : List OrderbookLevel := []
  deriving DecidableEq, Repr

/-- Orderbook.best_yes_ask: minimum ask price, none when empty. -/
def Orderbook.best_yes_ask (ob : Orderbook) : Option ℚ :=
  (ob.yes_asks.map (fun l => l.price)).min?

def Orderbook.best_no_ask (ob : Orderbook) : Option ℚ :=
  (ob.no_asks.map (fun l => l.price)).min?

/-! ## Strategy (src/backend/strategies/high_confidence_threshold.py) -/

inductive SignalDirection
  | yes | no
  deriving DecidableEq, Repr

inductive SignalStrength
  | low | medium | high
  deriving DecidableEq, Repr

/-- Modelled from the spec: the StrategySignal record of models/strategy.py,
which is absent from src/ (only its constructor calls in
strategies/base.py are present).  Fields follow spec section 3 "Signal"
plus the arguments _create_signal passes. -/
structure StrategySignal where
  strategy_name : String
  ticker : String
  direction : SignalDirection
  strength : SignalStrength
  true_probability : ℚ
  market_probability : ℚ
  edge : ℚ
  kelly_fraction : ℚ
  recommended_quantity : ℤ
  recommended_price : Option ℚ
  confidence : ℚ
  max_loss : ℚ
  max_gain : ℚ
  expires_at : ℚ
  deriving DecidableEq, Repr

/-- The strategy parameters set in HighConfidenceThresholdStrategy.__init__
together with the StrategyConfig fields it reads; values are the defaults
of config.params.get and of StrategyConfig. -/
structure StrategyParams where
  min_probability : ℚ := 90/100
  min_edge : ℚ := 5/100
  min_time_remaining : ℚ := 90
  max_time_remaining : ℚ := 14 * 60
  vol_lambda : ℚ := 94/100
  microstructure_floor : ℚ := 7/10000
  min_samples : ℕ := 5
  momentum_window : ℚ := 60
  vol_regime_lookback : ℚ := 300
  vol_spike_threshold : ℚ := 2
  kelly_fraction : ℚ := 25/100
  bankroll : ℚ := 10000
  name : String := "high_confidence_threshold"
  deriving DecidableEq, Repr

/-- Default parameter set (empty config.params dict). -/
def hctDefaults : StrategyParams := {}

/-- Oracle for the transcendental float routines the strategy calls
(numpy log and sqrt, scipy.stats norm.cdf); they are library code outside
the repository and are abstracted as rational functions. -/
structure NumOracle where
  log : ℚ → ℚ
  sqrt : ℚ → ℚ
  normCdf : ℚ → ℚ

/-- One spot price sample of price_history; time is epoch milliseconds. -/
structure PricePoint where
  price : ℚ
  time : ℚ
  deriving DecidableEq, Repr

/-- Stable insertion of a sample into a time-sorted list, placing it after
every earlier sample with the same or smaller timestamp. -/
def insertByTime (a : PricePoint) : List PricePoint → List PricePoint
  | [] => [a]
  | b :: rest => if b.time ≤ a.time then b :: insertByTime a rest else a :: b :: rest

/-- price_history sorted by timestamp; Python sorted is a stable sort and
any stable sort computes the same list. -/
def sortByTime (hist : List PricePoint) : List PricePoint :=
  hist.foldl (fun acc a => insertByTime a acc) []

/-- numpy std: population standard deviation, via the sqrt oracle. -/
def listStd (O : NumOracle) (l : List ℚ) : ℚ :=
  O.sqrt (listMean (l.map (fun x => (x - listMean l) ^ 2)))

/-- Log returns of the time-sorted history: np.diff(np.log(prices)). -/
def logReturns (O : NumOracle) (hist : List PricePoint) : List ℚ :=
  listDiff ((sortByTime hist).map (fun p => O.log p.price))

/-- HighConfidenceThresholdStrategy._calculate_ewma_volatility. -/
def ewma_volatility (O : NumOracle) (P : StrategyParams) (hist : List PricePoint) : ℚ :=
  if hist.length < 2 then 0
  else
    let lr := logReturns O hist
    if lr.length = 0 then 0
    else
      let variance := lr.reverse.foldl
        (fun v r => P.vol_lambda * v + (1 - P.vol_lambda) * r ^ 2) 0
      O.sqrt (variance * 31557600)

/-- Latest sample timestamp (max over the history; callers guard nonempty). -/
def latestTime (hist : List PricePoint) : ℚ :=
  (hist.map (fun p => p.time)).foldl max 0

/-- HighConfidenceThresholdStrategy._calculate_momentum_drift. -/
def momentum_drift (O : NumOracle) (P : StrategyParams) (hist : List PricePoint) : ℚ :=
  if hist.length < 2 then 0
  else
    let cutoff := latestTime hist - P.momentum_window * 1000
    let recent := hist.filter (fun p => cutoff ≤ p.time)
    if recent.length < 2 then 0
    else
      let lr := logReturns O recent
      listMean lr * 31557600

/-- HighConfidenceThresholdStrategy._detect_volatility_spike. -/
def detect_volatility_spike (O : NumOracle) (P : StrategyParams) (hist : List PricePoint) : Bool :=
  if hist.length < 20 then false
  else
    let cutoff := latestTime hist - P.vol_regime_lookback * 1000
    let recent := hist.filter (fun p => cutoff ≤ p.time)
    if recent.length < 10 then false
    else
      let lr := logReturns O recent
      if lr.length < 5 then false
      else
        let split := lr.length * 8 / 10
        let recent_vol := listStd O (lr.drop split)
        let historical_vol := listStd O (lr.take split)
        if 0 < historical_vol then
          decide (P.vol_spike_threshold < recent_vol / historical_vol)
        else false

/-- HighConfidenceThresholdStrategy._calculate_probability_closed_form. -/
def probability_closed_form (O : NumOracle) (S0 K T sigma mu : ℚ) : ℚ :=
  if T ≤ 0 ∨ sigma ≤ 0 ∨ S0 ≤ 0 ∨ K ≤ 0 then 1/2
  else
    let d := (O.log (S0 / K) + (mu - sigma ^ 2 / 2) * T) / (sigma * O.sqrt T)
    max (1/1000) (min (999/1000) (O.normCdf d))

/-- HighConfidenceThresholdStrategy._categorize_strength. -/
def categorize_strength (edge : ℚ) : SignalStrength :=
  if 10/100 ≤ edge then .high
  else if 7/100 ≤ edge then .medium
  else .low

/-- HighConfidenceThresholdStrategy._calculate_position_size. -/
def calculate_position_size (P : StrategyParams) (edge bankroll market_price : ℚ) : ℤ :=
  if edge ≤ 0 ∨ market_price ≤ 0 ∨ 1 ≤ market_price then 0
  else
    let kelly_fraction := edge / market_price
    let adjusted_fraction := kelly_fraction * P.kelly_fraction
    let risk_reward_ratio := market_price / (1 - market_price)
    let adjusted_fraction :=
      if 5 < risk_reward_ratio then adjusted_fraction * (1/2) else adjusted_fraction
    let position_value := bankroll * adjusted_fraction
    max 1 ⌊position_value / market_price⌋

/-- HighConfidenceThresholdStrategy._get_optimal_price. -/
def get_optimal_price (direction : SignalDirection) (market : Market)
    (orderbook : Option Orderbook) : Option ℚ :=
  match orderbook with
  | none => if direction = SignalDirection.yes then market.yes_price else market.no_price
  | some ob =>
      if direction = SignalDirection.yes then
        match ob.best_yes_ask with
        | some best_ask => some (max (1/100) (best_ask - 1/100))
        | none => market.yes_price
      else
        match ob.best_no_ask with
        | some best_ask => some (max (1/100) (best_ask - 1/100))
        | none => market.no_price

/-- BaseStrategy._create_signal (strategies/base.py). -/
def create_signal (P : StrategyParams) (market : Market) (direction : SignalDirection)
    (strength : SignalStrength) (true_probability market_probability : ℚ)
    (recommended_quantity : ℤ) (recommended_price : Option ℚ) : StrategySignal :=
  let edge := true_probability - market_probability
  let px := recommended_price.getD market_probability
  let max_loss := if direction = SignalDirection.yes then (recommended_quantity : ℚ) * px
                  else (recommended_quantity : ℚ) * (1 - px)
  let max_gain := if direction = SignalDirection.yes then (recommended_quantity : ℚ) * (1 - px)
                  else (recommended_quantity : ℚ) * px
  let confidence : ℚ := match strength with
    | .low => 6/10
    | .medium => 75/100
    | .high => 9/10
  { strategy_name := P.name
    ticker := market.ticker
    direction := direction
    strength := strength
    true_probability := true_probability
    market_probability := market_probability
    edge := edge
    kelly_fraction := P.kelly_fraction
    recommended_quantity := recommended_quantity
    recommended_price := recommended_price
    confidence := confidence
    max_loss := max_loss
    max_gain := max_gain
    expires_at := market.close_time }

/-- The two time-window checks of analyze step 1, as one predicate. -/
def time_gate_ok (P : StrategyParams) (t : ℚ) : Bool :=
  !(t < P.min_time_remaining) && !(t > P.max_time_remaining)

/-- HighConfidenceThresholdStrategy.analyze. -/
def analyze (O : NumOracle) (P : StrategyParams) (now : ℚ) (market : Market)
    (current_price : ℚ) (price_history : List PricePoint)
    (orderbook : Option Orderbook) : Option StrategySignal :=
  -- 1. pre-filtering checks
  if !(market.is_tradeable now) then none
  else
    let time_remaining := market.time_remaining now
    if time_remaining < P.min_time_remaining then none
    else if P.max_time_remaining < time_remaining then none
    else
      match market.yes_price with
      | none => none
      | some market_prob =>
        if market_prob ≤ 0 ∨ 1 ≤ market_prob then none
        else if price_history.length < P.min_samples then none
        else
          -- 2. volatility estimation
          let volatility := ewma_volatility O P price_history
          if volatility ≤ 0 then none
          else
            let T_years := time_remaining / (36525/100 * 24 * 3600)
            let vol_floor := if 0 < T_years then P.microstructure_floor / O.sqrt T_years
                             else P.microstructure_floor
            let vol_total := max volatility vol_floor
            -- 3. volatility regime filter
            if detect_volatility_spike O P price_history then none
            else
              -- 4. momentum-adjusted drift
              let mu := momentum_drift O P price_history
              -- 5. probability estimation (closed form; use_monte_carlo false)
              let true_prob := probability_closed_form O current_price market.strike_price
                T_years vol_total mu
              -- 6. threshold gating
              if true_prob < P.min_probability then none
              else
                let edge := true_prob - market_prob
                if edge < P.min_edge then none
                else
                  -- 7. signal generation: YES contracts only
                  let direction := SignalDirection.yes
                  let strength := categorize_strength edge
                  let quantity := calculate_position_size P edge P.bankroll market_prob
                  let recommended_price := get_optimal_price direction market orderbook
                  some (create_signal P market direction strength true_prob market_prob
                    quantity recommended_price)

/-! ## Kalshi client (src/backend/trading_engine/kalshi_client.py)
HTTP traffic is modelled as an effect trace; the outcome of each
attempted request is supplied by an environment function, so the retry
logic is a pure function of that environment. -/

/-- An observable effect of the client: an HTTP request (method, path) or
an asyncio.sleep of the given seconds. -/
inductive Effect
  | req (method path : String)
  | sleep (secs : ℚ)
  deriving DecidableEq, Repr

/-- A request is an exchange mutation unless it only reads. -/
def Effect.isMutation : Effect → Bool
  | .req m _ => m ≠ "GET"
  | .sleep _ => false

/-- Every request in the trace uses the given method (sleeps allowed). -/
def effectFrom (m : String) : Effect → Bool
  | .req m2 _ => m2 == m
  | .sleep _ => true

/-- A trace that contains no exchange mutation. -/
def allReads (l : List Effect) : Bool := l.all (fun e => !(e.isMutation))

/-- What one call of _request produces, from the caller's point of view:
a parsed body of type beta, an HTTPStatusError carrying a status code
(with the parsed body when the response was parseable JSON), or a
network-level error (ConnectError / ReadTimeout / ConnectTimeout). -/
inductive AttemptResult (β : Type)
  | success (body : β)
  | httpError (status : ℕ) (body : Option β)
  | netError
  deriving DecidableEq, Repr

/-- The result of _request_with_retry: a body, an uncaught
HTTPStatusError, an uncaught network error, or the final RuntimeError
(unreachable in the source, kept for faithfulness). -/
inductive RetryOutcome (β : Type)
  | ok (body : β)
  | httpRaise (status : ℕ)
  | netRaise
  | exhausted
  deriving DecidableEq, Repr

def mGET : String := "GET"
def mPOST : String := "POST"
def mDELETE : String := "DELETE"

/-- The attempt loop of KalshiClient._request_with_retry.  fuel counts the
remaining iterations of the range(max_retries + 1) loop. -/
def retryGo (method path : String) (maxRetries : ℕ) (emptyBody : β)
    (env : ℕ → AttemptResult β) : ℕ → ℕ → List Effect × RetryOutcome β
  | _, 0 => ([], .exhausted)
  | attempt, fuel + 1 =>
    let eff := Effect.req method path
    match env attempt with
    | .success b => ([eff], .ok b)
    | .httpError status body =>
        if status = 429 ∧ attempt < maxRetries then
          let rest := retryGo method path maxRetries emptyBody env (attempt + 1) fuel
          (eff :: Effect.sleep ((2 : ℚ) ^ attempt) :: rest.1, rest.2)
        else if 500 ≤ status ∧ status < 600 ∧ attempt = 0 then
          let rest := retryGo method path maxRetries emptyBody env (attempt + 1) fuel
          (eff :: Effect.sleep 2 :: rest.1, rest.2)
        else if status = 409 ∧ method = mPOST then
          ([eff], .ok (body.getD emptyBody))
        else ([eff], .httpRaise status)
    | .netError =>
        if attempt < maxRetries then
          let rest := retryGo method path maxRetries emptyBody env (attempt + 1) fuel
          (eff :: Effect.sleep ((2 : ℚ) ^ attempt) :: rest.1, rest.2)
        else ([eff], .netRaise)

/-- KalshiClient._request_with_retry with its default max_retries = 3. -/
def request_with_retry (method path : String) (emptyBody : β)
    (env : ℕ → AttemptResult β) : List Effect × RetryOutcome β :=
  retryGo method path 3 emptyBody env 0 4

/-- Attempt environment built from a list (attempt i sees the i-th entry). -/
def envOf (l : List (AttemptResult β)) : ℕ → AttemptResult β :=
  fun i => l.getD i AttemptResult.netError

/-- JSON body of POST /portfolio/orders, keys omitted when None. -/
structure OrderBody where
  ticker : String
  client_order_id : String
  side : String
  action : String
  count : ℕ
  type : String
  yes_price : Option ℤ := none
  no_price : Option ℤ := none
  buy_max_cost : Option ℤ := none
  time_in_force : Option String := none
  post_only : Option Bool := none
  reduce_only : Option Bool := none
  expiration_ts : Option ℤ := none
  deriving DecidableEq, Repr

def emptyStr : String := ""
def buyStr : String := "buy"
def yesStr : String := "yes"
def noStr : String := "no"
def limitStr : String := "limit"
def marketStr : String := "market"
def manualStr : String := "manual"
def dryRunNote : String := "Dry run - order not submitted"
def priceRangeErr : String := "ValueError: price out of range 1-99"
def buyMaxCostErr : String := "ValueError: buy_max_cost is required for market orders"
def decreaseBothErr : String := "ValueError: provide reduce_by OR reduce_to, not both"
def decreaseNoneErr : String := "ValueError: provide either reduce_by or reduce_to"
def batchLimitErr : String := "ValueError: batch limited to 20 orders per call"
def netRaiseErr : String := "network error"
def exhaustedErr : String := "RuntimeError: exhausted all attempts"
def httpStatusNote : String := "HTTP error"

def TradeSide.str : TradeSide → String
  | .yes => yesStr
  | .no => noStr

def OrderType.str : OrderType → String
  | .limit => limitStr
  | .market => marketStr

def ordersPath : String := "/portfolio/orders"
def marketsPath : String := "/markets"
def fillsPath : String := "/portfolio/fills"
def batchedOrdersPath : String := ordersPath ++ "/batched"
def orderPath (order_id : String) : String := ordersPath ++ "/" ++ order_id
def amendPath (order_id : String) : String := orderPath order_id ++ "/amend"
def decreasePath (order_id : String) : String := orderPath order_id ++ "/decrease"
def marketPath (ticker : String) : String := marketsPath ++ "/" ++ ticker

instance {ε α : Type} [DecidableEq ε] [DecidableEq α] : DecidableEq (Except ε α) := fun x y =>
  match x, y with
  | Except.ok a, Except.ok b =>
      if h : a = b then Decidable.isTrue (by simp [h]) else Decidable.isFalse (by simp [h])
  | Except.error a, Except.error b =>
      if h : a = b then Decidable.isTrue (by simp [h]) else Decidable.isFalse (by simp [h])
  | Except.ok _, Except.error _ => Decidable.isFalse (by simp)
  | Except.error _, Except.ok _ => Decidable.isFalse (by simp)

/-- Result of KalshiClient.place_order: the body handed to the HTTP layer
(none when no request was attempted), the effect trace, and the returned
Trade or the exception raised. -/
structure PlaceOutcome where
  sent : Option OrderBody
  effects : List Effect
  result : Except String Trade
  deriving DecidableEq, Repr

/-- KalshiClient.place_order.  The parsed success body of the POST is the
optional order_id extracted from resp["order"]; now is the
datetime.utcnow() timestamp of the call. -/
def kalshi_place_order (dry_run : Bool) (ticker : String) (side : TradeSide)
    (action : String) (quantity : ℕ) (order_type : OrderType) (price : Option ℚ)
    (buy_max_cost : Option ℤ) (time_in_force : Option String)
    (post_only reduce_only : Bool) (expiration_ts : Option ℤ)
    (client_order_id : String) (now : ℤ)
    (env : ℕ → AttemptResult (Option String)) : PlaceOutcome :=
  if dry_run then
    { sent := none
      effects := []
      result := Except.ok
        { ticker := ticker
          side := side
          order_type := order_type
          quantity := quantity
          price := price
          status := TradeStatus.pending
          strategy_name := manualStr
          dry_run := true
          notes := some dryRunNote } }
  else
    let body : OrderBody :=
      { ticker := ticker
        client_order_id := client_order_id
        side := side.str
        action := action
        count := quantity
        type := order_type.str }
    let priced : Except String OrderBody :=
      match order_type, price with
      | OrderType.limit, some p =>
          let price_cents := price_to_cents p
          if price_cents < 1 ∨ 99 < price_cents then Except.error priceRangeErr
          else if side = TradeSide.yes then Except.ok { body with yes_price := some price_cents }
          else Except.ok { body with no_price := some price_cents }
      | OrderType.limit, none => Except.ok body
      | OrderType.market, _ =>
          match buy_max_cost with
          | none => Except.error buyMaxCostErr
          | some c => Except.ok { body with buy_max_cost := some c }
    match priced with
    | Except.error e => { sent := none, effects := [], result := Except.error e }
    | Except.ok body =>
        let body := { body with
          time_in_force := time_in_force
          post_only := if post_only then some true else none
          reduce_only := if reduce_only then some true else none
          expiration_ts := expiration_ts }
        let r := request_with_retry mPOST ordersPath none env
        match r.2 with
        | RetryOutcome.ok order_id =>
            { sent := some body
              effects := r.1
              result := Except.ok
                { trade_id := some client_order_id
                  order_id := order_id
                  ticker := ticker
                  side := side
                  order_type := order_type
                  quantity := quantity
                  price := price
                  status := TradeStatus.submitted
                  strategy_name := manualStr
                  dry_run := false
                  submitted_at := some now } }
        | RetryOutcome.httpRaise _ =>
            -- except httpx.HTTPStatusError: return a FAILED trade
            { sent := some body
              effects := r.1
              result := Except.ok
                { ticker := ticker
                  side := side
                  order_type := order_type
                  quantity := quantity
                  price := price
                  status := TradeStatus.failed
                  strategy_name := manualStr
                  dry_run := false
                  notes := some httpStatusNote } }
        | RetryOutcome.netRaise =>
            { sent := some body, effects := r.1, result := Except.error netRaiseErr }
        | RetryOutcome.exhausted =>
            { sent := some body, effects := r.1, result := Except.error exhaustedErr }

/-- KalshiClient.cancel_order (DELETE one order). -/
def kalshi_cancel_order (dry_run : Bool) (order_id : String)
    (env : ℕ → AttemptResult Unit) : List Effect × Except String Unit :=
  if dry_run then ([], Except.ok ())
  else
    let r := request_with_retry mDELETE (orderPath order_id) () env
    match r.2 with
    | RetryOutcome.ok _ => (r.1, Except.ok ())
    | RetryOutcome.httpRaise _ => (r.1, Except.error httpStatusNote)
    | RetryOutcome.netRaise => (r.1, Except.error netRaiseErr)
    | RetryOutcome.exhausted => (r.1, Except.error exhaustedErr)

/-- KalshiClient.amend_order; the parsed success body is the new order_id
from resp["order"]. -/
def kalshi_amend_order (dry_run : Bool) (order_id : String) (_ticker _side _action : String)
    (_yes_price _no_price : Option ℤ) (_count : Option ℕ)
    (env : ℕ → AttemptResult (Option String)) :
    List Effect × Except String (Option String) :=
  if dry_run then ([], Except.ok none)
  else
    let r := request_with_retry mPOST (amendPath order_id) none env
    match r.2 with
    | RetryOutcome.ok new_id => (r.1, Except.ok new_id)
    | RetryOutcome.httpRaise _ => (r.1, Except.error httpStatusNote)
    | RetryOutcome.netRaise => (r.1, Except.error netRaiseErr)
    | RetryOutcome.exhausted => (r.1, Except.error exhaustedErr)

/-- KalshiClient.decrease_order. -/
def kalshi_decrease_order (dry_run : Bool) (order_id : String)
    (reduce_by reduce_to : Option ℕ) (env : ℕ → AttemptResult Unit) :
    List Effect × Except String Unit :=
  if dry_run then ([], Except.ok ())
  else if reduce_by.isSome && reduce_to.isSome then ([], Except.error decreaseBothErr)
  else if reduce_by.isNone && reduce_to.isNone then ([], Except.error decreaseNoneErr)
  else
    let r := request_with_retry mPOST (decreasePath order_id) () env
    match r.2 with
    | RetryOutcome.ok _ => (r.1, Except.ok ())
    | RetryOutcome.httpRaise _ => (r.1, Except.error httpStatusNote)
    | RetryOutcome.netRaise => (r.1, Except.error netRaiseErr)
    | RetryOutcome.exhausted => (r.1, Except.error exhaustedErr)

/-- KalshiClient.batch_create_orders.  The 20-order limit is checked
before the dry_run guard, as in the source. -/
def kalshi_batch_create_orders (dry_run : Bool) (orders : List OrderBody)
    (env : ℕ → AttemptResult Unit) : List Effect × Except String Unit :=
  if 20 < orders.length then ([], Except.error batchLimitErr)
  else if dry_run then ([], Except.ok ())
  else
    let r := request_with_retry mPOST batchedOrdersPath () env
    match r.2 with
    | RetryOutcome.ok _ => (r.1, Except.ok ())
    | RetryOutcome.httpRaise _ => (r.1, Except.error httpStatusNote)
    | RetryOutcome.netRaise => (r.1, Except.error netRaiseErr)
    | RetryOutcome.exhausted => (r.1, Except.error exhaustedErr)

/-- KalshiClient.batch_cancel_orders. -/
def kalshi_batch_cancel_orders (dry_run : Bool) (order_ids : List String)
    (env : ℕ → AttemptResult Unit) : List Effect × Except String Unit :=
  if 20 < order_ids.length then ([], Except.error batchLimitErr)
  else if dry_run then ([], Except.ok ())
  else
    let r := request_with_retry mDELETE batchedOrdersPath () env
    match r.2 with
    | RetryOutcome.ok _ => (r.1, Except.ok ())
    | RetryOutcome.httpRaise _ => (r.1, Except.error httpStatusNote)
    | RetryOutcome.netRaise => (r.1, Except.error netRaiseErr)
    | RetryOutcome.exhausted => (r.1, Except.error exhaustedErr)

/-- Placeholder Market used as the never-consulted empty body of GET
requests (the 409 idempotency branch applies only to POST). -/
def defaultMarket : Market :=
  { ticker := ""
    strike_price := 0
    window_start := 0
    window_end := 0
    close_time := 0
    expiration_time := 0 }

/-- KalshiClient.get_market; the parsed success body is a Market. -/
def kalshi_get_market (ticker : String) (env : ℕ → AttemptResult Market) :
    List Effect × Except String Market :=
  let r := request_with_retry mGET (marketPath ticker) defaultMarket env
  match r with
  | (effs, RetryOutcome.ok m) => (effs, Except.ok m)
  | (effs, _) => (effs, Except.error httpStatusNote)

/-! ## Order manager (src/backend/trading_engine/order_manager.py) -/

/-- 14 minutes, the stale-order threshold (seconds). -/
def staleOrderSeconds : ℤ := 14 * 60

/-- The "order" object of a Kalshi order-status response, with the fields
_apply_order_status reads; missing numeric fields are 0 as with dict.get
defaults. -/
structure OrderStatusData where
  status : String
  fill_count : ℕ := 0
  taker_fill_cost : ℕ := 0
  maker_fill_cost : ℕ := 0
  deriving DecidableEq, Repr

def restingStr : String := "resting"
def executedStr : String := "executed"
def canceledStr : String := "canceled"

/-- Python str.lower over the character list (String.toLower itself does
not reduce in proofs). -/
def strToLower (s : String) : String := String.mk (s.toList.map Char.toLower)

/-- The status-word dispatch of OrderManager._apply_order_status:
resting, executed and canceled transition the trade; anything else
(including the invalid word filled) leaves it unchanged. -/
def apply_status_word (trade : Trade) (now : ℤ) (kalshi_status : String) : Trade :=
  if kalshi_status = restingStr then { trade with status := TradeStatus.submitted }
  else if kalshi_status = executedStr then
    { trade with status := TradeStatus.filled, filled_at := some now }
  else if kalshi_status = canceledStr then
    { trade with status := TradeStatus.cancelled, cancelled_at := some now }
  else trade

/-- The fill-detail block of OrderManager._apply_order_status. -/
def apply_fill_fields (trade : Trade) (d : OrderStatusData) : Trade :=
  let trade := if d.fill_count ≠ 0 then { trade with filled_quantity := d.fill_count }
               else trade
  let total_fill_cost_cents := d.taker_fill_cost + d.maker_fill_cost
  let trade :=
    if d.fill_count ≠ 0 ∧ total_fill_cost_cents ≠ 0 then
      { trade with average_fill_price := (some ((total_fill_cost_cents : ℚ) / (d.fill_count : ℚ) / 100)) }
    else trade
  -- `if trade.filled_quantity and trade.average_fill_price:` (Python truthiness)
  match trade.average_fill_price with
  | some p =>
      if trade.filled_quantity ≠ 0 ∧ p ≠ 0 then
        { trade with cost := some ((trade.filled_quantity : ℚ) * p) }
      else trade
  | none => trade

/-- OrderManager._apply_order_status. -/
def apply_order_status (trade : Trade) (now : ℤ) (d : OrderStatusData) : Trade :=
  apply_fill_fields (apply_status_word trade now (strToLower d.status)) d

/-- A trade status that never transitions again. -/
def TradeStatus.isTerminal : TradeStatus → Bool
  | .filled | .cancelled | .rejected | .failed => true
  | _ => false

/-- Mutable state of an OrderManager together with its RiskManager. -/
structure OMState where
  dry_run : Bool
  active_orders : List (String × Trade) := []
  completed_orders : List Trade := []
  submitted_client_ids : List String := []
  last_fills_ts : ℤ := 0
  risk : RiskState
  deriving DecidableEq, Repr

/-- OrderManager._sync_open_count. -/
def sync_open_count (st : OMState) : OMState :=
  { st with risk := set_open_orders_count st.risk st.active_orders.length }

/-- OrderManager._move_to_completed. -/
def move_to_completed (st : OMState) (trade_id : String) : OMState :=
  let st :=
    match st.active_orders.lookup trade_id with
    | none => st
    | some t =>
        let completed := st.completed_orders ++ [t]
        let completed := if 500 < completed.length then
            completed.drop (completed.length - 500)
          else completed
        { st with
          active_orders := st.active_orders.filter (fun p => p.1 ≠ trade_id)
          completed_orders := completed }
  sync_open_count st

/-- Modelled from the spec: StrategySignal.is_valid (models/strategy.py is
absent from src/); per spec section 3 a signal carries expires_at and is
executed only until it expires. -/
def signal_is_valid (s : StrategySignal) (now : ℚ) : Bool :=
  now < s.expires_at

/-- OrderManager.execute_signal.  now is the epoch-second timestamp of the
call (used both for datetimes and, via the spec-modelled validity test,
against signal.expires_at); today is the UTC day number; trade_id and
client_order_id stand for the two uuid4() draws. -/
def execute_signal (st : OMState) (now : ℤ) (today : ℤ) (signal : StrategySignal)
    (trade_id client_order_id : String)
    (env : ℕ → AttemptResult (Option String)) : OMState × List Effect × Option Trade :=
  if !(signal_is_valid signal (now : ℚ)) then (st, [], none)
  else if !(validate_signal_edge st.risk.config signal.edge signal.confidence) then
    (st, [], none)
  else
    let price := signal.recommended_price.getD (1/2)
    let rc := check_trade_allowed st.risk today signal.ticker
      signal.recommended_quantity.toNat price
    let st := { st with risk := rc.1 }
    if !rc.2.1 then (st, [], none)
    else
      let side := if signal.direction = SignalDirection.yes then TradeSide.yes
                  else TradeSide.no
      let trade : Trade :=
        { trade_id := some trade_id
          ticker := signal.ticker
          side := side
          order_type := OrderType.limit
          quantity := signal.recommended_quantity.toNat
          price := signal.recommended_price
          strategy_name := signal.strategy_name
          edge := some signal.edge
          confidence := some signal.confidence
          kelly_fraction := some signal.kelly_fraction
          dry_run := st.dry_run
          created_at := now }
      let po := kalshi_place_order st.dry_run trade.ticker trade.side buyStr
        trade.quantity trade.order_type trade.price none none false false none
        client_order_id now env
      match po.result with
      | Except.error e =>
          -- except branch: FAILED trade returned, not tracked or recorded
          (st, po.effects, some { trade with status := TradeStatus.failed, notes := some e })
      | Except.ok executed =>
          let st := if executed.trade_id.isSome then
              { st with submitted_client_ids := st.submitted_client_ids ++
                  [executed.trade_id.getD emptyStr] }
            else st
          let trade := if executed.order_id.isSome then
              { trade with order_id := executed.order_id }
            else trade
          let trade := { trade with
            status := executed.status
            submitted_at := some (executed.submitted_at.getD now) }
          let st :=
            if trade.status = TradeStatus.submitted ∨ trade.status = TradeStatus.pending then
              sync_open_count { st with active_orders := st.active_orders ++ [(trade_id, trade)] }
            else st
          let st := { st with risk := record_trade st.risk now today trade }
          (st, po.effects, some trade)

/-- OrderManager.cancel_order. -/
def om_cancel_order (st : OMState) (now : ℤ) (trade_id : String)
    (env : ℕ → AttemptResult Unit) : OMState × List Effect × Bool :=
  match st.active_orders.lookup trade_id with
  | none => (st, [], false)
  | some trade =>
      match trade.order_id with
      | none => (st, [], false)
      | some oid =>
          if trade.status.isTerminal then (st, [], false)
          else
            let c := kalshi_cancel_order st.dry_run oid env
            match c.2 with
            | Except.ok _ =>
                let trade := { trade with
                  status := TradeStatus.cancelled
                  cancelled_at := some now }
                let st := { st with active_orders := (st.active_orders.map
                    (fun p => if p.1 = trade_id then (trade_id, trade) else p)) }
                (move_to_completed st trade_id, c.1, true)
            | Except.error _ => (st, c.1, false)

/-- Chunks of at most 20 entries, as range(0, n, 20) slicing. -/
def chunks20 : List α → List (List α)
  | [] => []
  | a :: rest => ((a :: rest).take 20) :: chunks20 (rest.drop 19)
termination_by l => l.length
decreasing_by
  simp only [List.length_drop, List.length_cons]
  omega

/-- OrderManager.cancel_all_orders.  envs i is the attempt environment of
the i-th batch-cancel request. -/
def om_cancel_all_orders (st : OMState) (now : ℤ)
    (envs : ℕ → ℕ → AttemptResult Unit) : OMState × List Effect × ℕ :=
  let trade_ids := st.active_orders.map (fun p => p.1)
  let resting_ids := (st.active_orders.map (fun p => p.2)).filterMap
    (fun t => if t.order_id.isSome && !st.dry_run then t.order_id else none)
  let batch := (chunks20 resting_ids).enum.foldl
    (fun (acc : List Effect × ℕ) ic =>
      let r := kalshi_batch_cancel_orders st.dry_run ic.2 (envs ic.1)
      match r.2 with
      | Except.ok _ => (acc.1 ++ r.1, acc.2 + ic.2.length)
      | Except.error _ => (acc.1 ++ r.1, acc.2))
    ([], 0)
  let st := trade_ids.foldl
    (fun st tid =>
      match st.active_orders.lookup tid with
      | none => st
      | some t =>
          let t := { t with status := TradeStatus.cancelled, cancelled_at := some now }
          let st := { st with active_orders := (st.active_orders.map
              (fun p => if p.1 = tid then (tid, t) else p)) }
          move_to_completed st tid)
    st
  let cancelled := if st.dry_run then trade_ids.length else batch.2
  (st, batch.1, cancelled)

/-- OrderManager._simulate_paper_fills. -/
def simulate_paper_fills (st : OMState) (now today : ℤ) : OMState :=
  st.active_orders.foldl
    (fun st p =>
      let trade := p.2
      if trade.status ≠ TradeStatus.pending || !trade.dry_run then st
      else
        let age := now - (trade.submitted_at.getD trade.created_at)
        if age < 2 then st
        else
          let fill_price := match trade.price with
            | some pr => if 0 < pr then pr else 1/2
            | none => 1/2
          let trade := { trade with
            status := TradeStatus.filled
            filled_at := some now
            filled_quantity := trade.quantity
            average_fill_price := some fill_price
            cost := some ((trade.quantity : ℚ) * fill_price)
            pnl := none }
          let st := { st with active_orders := (st.active_orders.map
              (fun (q : String × Trade) => if q.1 = p.1 then (p.1, trade) else q)) }
          let st := { st with risk := record_trade st.risk now today trade }
          move_to_completed st p.1)
    st

/-- One iteration of the _settle_paper_positions loop: fetch the market
(read-only), decide resolution, settle the position. -/
def settle_step (now : ℤ) (menv : String → ℕ → AttemptResult Market)
    (acc : OMState × List Effect) (p : String × Position) : OMState × List Effect :=
  let st := acc.1
  let ticker := p.1
  let pos := p.2
  let g := kalshi_get_market ticker (menv ticker)
  let effects := acc.2 ++ g.1
  match g.2 with
  | Except.error _ => (st, effects)
  | Except.ok market =>
      if market.status ≠ MarketStatus.closed ∧ market.status ≠ MarketStatus.settled then
        (st, effects)
      else
        match market.yes_price with
        | none => (st, effects)
        | some yes_price =>
            if 99/100 ≤ yes_price ∨ yes_price ≤ 1/100 then
              let resolved_yes := 99/100 ≤ yes_price
              let entry := pos.average_entry_price
              let qty := (pos.quantity : ℚ)
              let pnl :=
                if pos.side = TradeSide.yes then
                  if resolved_yes then (1 - entry) * qty else -entry * qty
                else
                  if !resolved_yes then (1 - entry) * qty else -entry * qty
              ({ st with risk := close_position st.risk now ticker pnl }, effects)
            else (st, effects)

/-- OrderManager._settle_paper_positions.  menv gives the attempt
environment of the read-only market fetch per ticker. -/
def settle_paper_positions (st : OMState) (now : ℤ)
    (menv : String → ℕ → AttemptResult Market) : OMState × List Effect :=
  st.risk.positions.foldl (settle_step now menv) (st, [])

/-- One record of the GET /portfolio/fills response. -/
structure Fill where
  order_id : Option String := none
  count : ℕ := 0
  yes_price : ℤ := 0
  no_price : ℤ := 0
  deriving DecidableEq, Repr

/-- OrderManager._reconcile_fills.  In dry-run mode this is the paper
settlement scan; otherwise it polls the fills feed. -/
def reconcile_fills (st : OMState) (now : ℤ)
    (menv : String → ℕ → AttemptResult Market)
    (fenv : ℕ → AttemptResult (List Fill)) : OMState × List Effect :=
  if st.dry_run then settle_paper_positions st now menv
  else
    let r := request_with_retry mGET fillsPath [] fenv
    match r.2 with
    | RetryOutcome.ok fills =>
        let st := fills.foldl
          (fun st fill =>
            match fill.order_id with
            | none => st
            | some oid =>
                match st.active_orders.find? (fun p => p.2.order_id = some oid) with
                | none => st
                | some p =>
                    if p.2.status ≠ TradeStatus.filled then
                      let price_cents := if p.2.side = TradeSide.yes then fill.yes_price
                                         else fill.no_price
                      let t := { p.2 with
                        status := TradeStatus.filled
                        filled_at := some now
                        average_fill_price := some ((price_cents : ℚ) / 100)
                        filled_quantity := fill.count }
                      { st with active_orders := (st.active_orders.map
                          (fun (q : String × Trade) => if q.1 = p.1 then (p.1, t) else q)) }
                    else st)
          st
        ({ st with last_fills_ts := now }, r.1)
    | _ => (st, r.1)

/-- OrderManager._cancel_stale_orders.  envs i is the environment of the
i-th cancel issued during the sweep. -/
def cancel_stale_orders (st : OMState) (now : ℤ)
    (envs : ℕ → ℕ → AttemptResult Unit) : OMState × List Effect :=
  st.active_orders.enum.foldl
    (fun (acc : OMState × List Effect) ip =>
      let trade := ip.2.2
      if trade.status ≠ TradeStatus.submitted then acc
      else
        let age := now - (trade.submitted_at.getD trade.created_at)
        if staleOrderSeconds < age then
          let c := om_cancel_order acc.1 now ip.2.1 (envs ip.1)
          (c.1, acc.2 ++ c.2.1)
        else acc)
    (st, [])

/-- OrderManager._poll_active_orders.  senv gives the environment of each
status fetch, keyed by exchange order id. -/
def poll_active_orders (st : OMState) (now today : ℤ)
    (senv : String → ℕ → AttemptResult OrderStatusData) : OMState × List Effect :=
  if st.dry_run then (simulate_paper_fills st now today, [])
  else
    st.active_orders.foldl
      (fun (acc : OMState × List Effect) p =>
        let st := acc.1
        match p.2.order_id with
        | none => acc
        | some oid =>
            let r := request_with_retry mGET (orderPath oid) { status := emptyStr } (senv oid)
            let effects := acc.2 ++ r.1
            match r.2 with
            | RetryOutcome.ok data =>
                let t := apply_order_status p.2 now data
                let st := { st with active_orders := (st.active_orders.map
                    (fun (q : String × Trade) => if q.1 = p.1 then (p.1, t) else q)) }
                if t.status.isTerminal then
                  let st := { st with risk := record_trade st.risk now today t }
                  (move_to_completed st p.1, effects)
                else (st, effects)
            | _ => (st, effects))
      (st, [])

/-! ## Spec-side definition for the seven-gate claim -/

/-- First failing gate of an ordered gate list, as the spec words it:
(false, reason) at the first failure, (true, none) when all pass. -/
def firstFailure : List (Bool × GateReason) → Bool × Option GateReason
  | [] => (true, none)
  | g :: rest => if g.1 then (false, some g.2) else firstFailure rest

/-- The seven admission gates exactly as the spec lists them, evaluated
in order on the (post-rollover) risk state. -/
def sevenGatesSpec (st : RiskState) (ticker : String) (quantity : ℕ) (price : ℚ) :
    Bool × Option GateReason :=
  let position_value := (quantity : ℚ) * price
  let ceiling := st.bankroll * st.config.position_ceiling_pct
  firstFailure
    [ (st.circuit_breaker_active,
        GateReason.circuitBreaker st.circuit_breaker_reason),
      (decide (st.bankroll * st.config.position_ceiling_pct < position_value),
        GateReason.positionCeiling position_value ceiling),
      (decide (st.config.max_concurrent_positions ≤ st.positions.length),
        GateReason.maxPositions st.config.max_concurrent_positions),
      (decide (st.daily_realized_pnl < 0 ∧
          st.bankroll * st.config.circuit_breaker_loss_threshold ≤ |st.daily_realized_pnl|),
        GateReason.dailyLoss |st.daily_realized_pnl|
          (st.bankroll * st.config.circuit_breaker_loss_threshold)),
      (decide (st.config.weekly_drawdown_cap ≤ (compute_weekly_drawdown st).2),
        GateReason.weeklyDrawdown (compute_weekly_drawdown st).2 st.config.weekly_drawdown_cap),
      (decide (ceiling * (st.config.max_concurrent_positions : ℚ) <
          totalExposure st.positions + position_value),
        GateReason.totalExposure (totalExposure st.positions + position_value)
          (ceiling * (st.config.max_concurrent_positions : ℚ))),
      ((st.positions.lookup ticker).isSome,
        GateReason.duplicatePosition ticker) ]

/-! ## Concrete fixtures used by witnesses and counterexamples -/

def tkA : String := "MKT-A"
def filledStr : String := "filled"
def tidA : String := "trade-1"
def oidA : String := "order-1"

/-- A clean risk state: bankroll 10000, no positions, day 20000 (a
Friday; its Monday is 19996), breaker clear. -/
def rsBase : RiskState :=
  { config := {}
    bankroll := 10000
    daily_date := 20000
    weekly_start_date := 19996
    weekly_start_equity := 10000
    weekly_peak_equity := 10000
    session_start_equity := 10000
    session_peak_equity := 10000 }

/-- rsBase with the Layer-3 circuit breaker latched. -/
def rsActive : RiskState :=
  { rsBase with
    circuit_breaker_active := true
    circuit_breaker_triggered_at := some 0
    circuit_breaker_reason := layer3Reason
    metrics := { circuit_breaker_triggered := true, circuit_breaker_reason := layer3Reason } }

/-- Oracle whose probability output is 1 percent (and whose log and sqrt
are harmless positive-preserving stand-ins). -/
def oracleLow : NumOracle :=
  { log := fun x => x, sqrt := fun x => x, normCdf := fun _ => 1/100 }

/-- Oracle whose probability output is 99 percent. -/
def oracleHigh : NumOracle :=
  { log := fun x => x, sqrt := fun x => x, normCdf := fun _ => 99/100 }

/-- Five spot samples alternating 100 and 101, one second apart. -/
def c4hist : List PricePoint :=
  [ { price := 100, time := 0 },
    { price := 101, time := 1000 },
    { price := 100, time := 2000 },
    { price := 101, time := 3000 },
    { price := 100, time := 4000 } ]

/-- An open market, 500 s to window end at now = 0, priced 50/50. -/
def c4mktCheap : Market :=
  { ticker := tkA
    strike_price := 100
    window_start := 0
    window_end := 500
    close_time := 1000
    expiration_time := 500
    status := MarketStatus.open
    yes_price := some (1/2)
    no_price := some (1/2) }

/-- Same market with yes at 0.97, so the spec's NO candidate (cheap no
side) qualifies whenever (1 - p_true) is large. -/
def c4mktNo : Market := { c4mktCheap with yes_price := some (97/100), no_price := some (3/100) }

/-- c4mktCheap with 30 s (respectively 600 s) to window end at now = 0. -/
def c5mkt30 : Market := { c4mktCheap with window_end := 30 }
def c5mkt600 : Market := { c4mktCheap with window_end := 600 }

/-- The signal analyze emits for oracleHigh on c4mktCheap: edge 0.49,
quantity 4900, high strength. -/
def c4sig : StrategySignal :=
  { strategy_name := hctDefaults.name
    ticker := tkA
    direction := SignalDirection.yes
    strength := SignalStrength.high
    true_probability := 99/100
    market_probability := 1/2
    edge := 49/100
    kelly_fraction := 25/100
    recommended_quantity := 4900
    recommended_price := some (1/2)
    confidence := 9/10
    max_loss := 2450
    max_gain := 2450
    expires_at := 1000 }

/-- The binary64 values of the Python literals 0.545, 0.005 and 0.995. -/
def f545 : ℚ := roundF64 (545/1000)
def f005 : ℚ := roundF64 (5/1000)
def f995 : ℚ := roundF64 (995/1000)

/-- Environment whose every attempt fails at the network level. -/
def envNet : ℕ → AttemptResult β := fun _ => AttemptResult.netError

/-- A pending dry-run trade resting since t = 0. -/
def tr1 : Trade :=
  { trade_id := some tidA
    order_id := some oidA
    ticker := tkA
    side := TradeSide.yes
    quantity := 10
    price := some (1/2)
    status := TradeStatus.pending
    strategy_name := hctDefaults.name
    dry_run := true
    created_at := 0
    submitted_at := some 0 }

/-- An open YES position of 10 contracts at 0.50. -/
def posA : Position :=
  { ticker := tkA
    side := TradeSide.yes
    quantity := 10
    average_entry_price := 1/2
    entry_time := 0
    max_loss := 5
    max_gain := 5 }

/-- A dry-run OrderManager with one active paper order and one open
position. -/
def omDry : OMState :=
  { dry_run := true
    active_orders := [(tidA, tr1)]
    risk := { rsBase with positions := [(tkA, posA)] } }

/-- The time-to-expiry in years that analyze computes for c4mktNo at
now = 0 (same for the other fixture markets with window_end 500). -/
def c4Tyears : ℚ := Market.time_remaining c4mktNo 0 / (36525/100 * 24 * 3600)

/-- The total volatility (EWMA with microstructure floor) analyze
computes for oracleLow on c4hist at 500 s to expiry. -/
def c4volTotal : ℚ :=
  max (ewma_volatility oracleLow hctDefaults c4hist)
    (if 0 < c4Tyears then hctDefaults.microstructure_floor / oracleLow.sqrt c4Tyears
     else hctDefaults.microstructure_floor)

/-- The step-5 true probability analyze computes for oracleLow on
c4mktNo at now = 0 with history c4hist. -/
def c4ptrue : ℚ :=
  probability_closed_form oracleLow 100 c4mktNo.strike_price c4Tyears c4volTotal
    (momentum_drift oracleLow hctDefaults c4hist)

/-- Network-failing environments for the order-manager fixtures. -/
def menvNet : String → ℕ → AttemptResult Market := fun _ _ => AttemptResult.netError
def fenvNet : ℕ → AttemptResult (List Fill) := fun _ => AttemptResult.netError
def envsNet : ℕ → ℕ → AttemptResult Unit := fun _ _ => AttemptResult.netError
def senvNet : String → ℕ → AttemptResult OrderStatusData := fun _ _ => AttemptResult.netError

/-! ## Theorems -/

/-- Helper: compute_weekly_drawdown changes only the weekly peak. -/
lemma compute_weekly_drawdown_fst (st : RiskState) :
    (compute_weekly_drawdown st).1 =
      { st with weekly_peak_equity := (compute_weekly_drawdown st).1.weekly_peak_equity } := by
  unfold compute_weekly_drawdown
  split <;> rfl

lemma compute_weekly_drawdown_positions (st : RiskState) :
    (compute_weekly_drawdown st).1.positions = st.positions := by
  unfold compute_weekly_drawdown
  split <;> rfl

lemma compute_weekly_drawdown_config (st : RiskState) :
    (compute_weekly_drawdown st).1.config = st.config := by
  unfold compute_weekly_drawdown
  split <;> rfl

/-- C1: while the circuit breaker is latched at the moment Gate 1 runs
(that is, it survived the daily and weekly rollover done at the start of
the call), check_trade_allowed refuses with the stored reason, whatever
the ticker, quantity and price. -/
theorem c1_circuit_breaker_blocks_all (st : RiskState) (today : ℤ) (ticker : String)
    (quantity : ℕ) (price : ℚ)
    (h : (maybe_reset_weekly (maybe_reset_daily st today) today).circuit_breaker_active = true) :
    (check_trade_allowed st today ticker quantity price).2 =
      (false, some (GateReason.circuitBreaker
        (maybe_reset_weekly (maybe_reset_daily st today) today).circuit_breaker_reason)) := by
  unfold check_trade_allowed
  simp [h]

/-- Witness: a latched Layer-3 state refuses a concrete trade. -/
theorem c1_circuit_breaker_blocks_all_witness :
    ((maybe_reset_weekly (maybe_reset_daily rsActive 20000) 20000).circuit_breaker_active = true)
    ∧ (check_trade_allowed rsActive 20000 tkA 5 (1/2)).2 =
        (false, some (GateReason.circuitBreaker
          (maybe_reset_weekly (maybe_reset_daily rsActive 20000) 20000).circuit_breaker_reason)) :=
  ⟨rfl, c1_circuit_breaker_blocks_all rsActive 20000 tkA 5 (1/2) rfl⟩

/-- C10: trigger_circuit_breaker is a no-op while the breaker is already
latched: the whole state, including the stored reason, the trigger
timestamp and the metrics flags, is unchanged. -/
theorem c10_trigger_idempotent (st : RiskState) (now : ℤ) (reason : String)
    (h : st.circuit_breaker_active = true) :
    trigger_circuit_breaker st now reason = st := by
  unfold trigger_circuit_breaker
  simp [h]

/-- Witness: re-triggering the latched fixture with a fresh reason
changes nothing. -/
theorem c10_trigger_idempotent_witness :
    rsActive.circuit_breaker_active = true
    ∧ trigger_circuit_breaker rsActive 123 layer1Reason = rsActive :=
  ⟨rfl, c10_trigger_idempotent rsActive 123 layer1Reason rfl⟩

/-- C3: check_trade_allowed is exactly the ordered seven-gate test of the
spec, applied to the state after the start-of-call rollovers: it returns
(false, reason) at the first failing gate and (true, none) when all seven
pass. -/
theorem c3_seven_gate_order (st : RiskState) (today : ℤ) (ticker : String)
    (quantity : ℕ) (price : ℚ) :
    (check_trade_allowed st today ticker quantity price).2 =
      sevenGatesSpec (maybe_reset_weekly (maybe_reset_daily st today) today)
        ticker quantity price := by
  unfold check_trade_allowed sevenGatesSpec
  set st1 := maybe_reset_weekly (maybe_reset_daily st today) today with hst1
  by_cases h1 : st1.circuit_breaker_active
  · simp [firstFailure, h1]
  · by_cases h2 : st1.bankroll * st1.config.position_ceiling_pct < (quantity : ℚ) * price
    · simp [firstFailure, h1, h2]
    · by_cases h3 : st1.config.max_concurrent_positions ≤ st1.positions.length
      · simp [firstFailure, h1, h2, h3]
      · by_cases h4 : st1.daily_realized_pnl < 0 ∧
            st1.bankroll * st1.config.circuit_breaker_loss_threshold ≤ |st1.daily_realized_pnl|
        · simp [firstFailure, h1, h2, h3, h4]
        · by_cases h5 : st1.config.weekly_drawdown_cap ≤ (compute_weekly_drawdown st1).2
          · simp [firstFailure, h1, h2, h3, h4, h5, compute_weekly_drawdown_config]
          · by_cases h6 : st1.bankroll * st1.config.position_ceiling_pct *
                (st1.config.max_concurrent_positions : ℚ) <
                totalExposure st1.positions + (quantity : ℚ) * price
            · simp [firstFailure, h1, h2, h3, h4, h5, h6,
                compute_weekly_drawdown_config, compute_weekly_drawdown_positions]
            · by_cases h7 : (st1.positions.lookup ticker).isSome
              · simp [firstFailure, h1, h2, h3, h4, h5, h6, h7,
                  compute_weekly_drawdown_config, compute_weekly_drawdown_positions]
              · simp [firstFailure, h1, h2, h3, h4, h5, h6, h7,
                  compute_weekly_drawdown_config, compute_weekly_drawdown_positions]


/-- Helper: the exchange status words are lower-case fixed points. -/
lemma executedStr_lower : strToLower executedStr = executedStr := rfl
lemma restingStr_lower : strToLower restingStr = restingStr := rfl
lemma canceledStr_lower : strToLower canceledStr = canceledStr := rfl
lemma filledStr_lower : strToLower filledStr = filledStr := rfl

/-- Helper: the fill-detail block never changes the status field. -/
lemma apply_fill_fields_status (trade : Trade) (d : OrderStatusData) :
    (apply_fill_fields trade d).status = trade.status := by
  unfold apply_fill_fields
  dsimp only
  repeat' split
  all_goals rfl

/-- Helper: when a nonzero fill count and nonzero combined fill cost are
reported, the fill block computes the average fill price. -/
lemma apply_fill_fields_avg (trade : Trade) (d : OrderStatusData)
    (hfc : d.fill_count ≠ 0) (htm : d.taker_fill_cost + d.maker_fill_cost ≠ 0) :
    (apply_fill_fields trade d).average_fill_price =
      some (((d.taker_fill_cost + d.maker_fill_cost : ℕ) : ℚ) / (d.fill_count : ℚ) / 100) := by
  unfold apply_fill_fields
  dsimp only
  simp only [hfc, htm, ne_eq, not_false_iff, and_self, if_true, ite_true]
  split <;> rfl

/-- C9: the order-status mapping: the literal exchange word executed (and
only it; the word filled is not matched and changes nothing) makes the
trade FILLED, resting maps to SUBMITTED, canceled to CANCELLED, and
whenever fill_count and the combined fill costs are present (nonzero)
average_fill_price = (taker_fill_cost + maker_fill_cost) / fill_count / 100. -/
theorem c9_status_mapping (trade : Trade) (now : ℤ) (s : String) (fc tc mc : ℕ) :
    (apply_order_status trade now
        { status := executedStr, fill_count := fc, taker_fill_cost := tc,
          maker_fill_cost := mc }).status = TradeStatus.filled
    ∧ (apply_order_status trade now
        { status := restingStr, fill_count := fc, taker_fill_cost := tc,
          maker_fill_cost := mc }).status = TradeStatus.submitted
    ∧ (apply_order_status trade now
        { status := canceledStr, fill_count := fc, taker_fill_cost := tc,
          maker_fill_cost := mc }).status = TradeStatus.cancelled
    ∧ (apply_order_status trade now
        { status := filledStr, fill_count := fc, taker_fill_cost := tc,
          maker_fill_cost := mc }).status = trade.status
    ∧ (fc ≠ 0 → tc + mc ≠ 0 →
        (apply_order_status trade now
            { status := s, fill_count := fc, taker_fill_cost := tc,
              maker_fill_cost := mc }).average_fill_price =
          some (((tc + mc : ℕ) : ℚ) / (fc : ℚ) / 100)) := by
  refine ⟨?_, ?_, ?_, ?_, ?_⟩
  · rw [apply_order_status, apply_fill_fields_status, executedStr_lower, apply_status_word]
    simp [restingStr, executedStr]
  · rw [apply_order_status, apply_fill_fields_status, restingStr_lower, apply_status_word]
    simp
  · rw [apply_order_status, apply_fill_fields_status, canceledStr_lower, apply_status_word]
    simp [restingStr, executedStr, canceledStr]
  · rw [apply_order_status, apply_fill_fields_status, filledStr_lower, apply_status_word]
    simp [restingStr, executedStr, canceledStr, filledStr]
  · intro hfc htm
    rw [apply_order_status, apply_fill_fields_avg _ _ hfc htm]

/-- Witness for C9 at a concrete trade and concrete fill numbers. -/
theorem c9_status_mapping_witness :
    (3 : ℕ) ≠ 0 ∧ (110 : ℕ) + 55 ≠ 0
    ∧ (apply_order_status tr1 7
        { status := executedStr, fill_count := 3, taker_fill_cost := 110,
          maker_fill_cost := 55 }).status = TradeStatus.filled
    ∧ (apply_order_status tr1 7
        { status := executedStr, fill_count := 3, taker_fill_cost := 110,
          maker_fill_cost := 55 }).average_fill_price =
        some (((110 + 55 : ℕ) : ℚ) / (3 : ℚ) / 100) :=
  ⟨by decide, by decide,
    (c9_status_mapping tr1 7 executedStr 3 110 55).1,
    ((c9_status_mapping tr1 7 executedStr 3 110 55).2.2.2.2 (by decide) (by decide))⟩

/-- C8: the retry wrapper implements the failure policy: 429 is retried
with exponential backoff 2^attempt for up to 3 retries; a 5xx is retried
exactly once after 2 s; a 409 on a POST is idempotent success returning
the parsed body (or the empty body when unparseable); network errors are
retried up to 3 times with backoff; every other non-2xx raises
immediately with no sleep. -/
theorem c8_retry_policy :
    (∀ m path b0 b1 b2 b3,
      request_with_retry m path emptyStr (envOf
          [AttemptResult.httpError 429 b0, AttemptResult.httpError 429 b1,
           AttemptResult.httpError 429 b2, AttemptResult.httpError 429 b3]) =
        ([Effect.req m path, Effect.sleep 1, Effect.req m path, Effect.sleep 2,
          Effect.req m path, Effect.sleep 4, Effect.req m path],
         RetryOutcome.httpRaise 429))
    ∧ (∀ m path b0 body rest,
      request_with_retry m path emptyStr (envOf
          (AttemptResult.httpError 429 b0 :: AttemptResult.success body :: rest)) =
        ([Effect.req m path, Effect.sleep 1, Effect.req m path], RetryOutcome.ok body))
    ∧ (∀ m path s b0 body rest, 500 ≤ s → s ≤ 599 →
      request_with_retry m path emptyStr (envOf
          (AttemptResult.httpError s b0 :: AttemptResult.success body :: rest)) =
        ([Effect.req m path, Effect.sleep 2, Effect.req m path], RetryOutcome.ok body))
    ∧ (∀ m path s s' b0 b1, 500 ≤ s → s ≤ 599 → 500 ≤ s' → s' ≤ 599 →
      request_with_retry m path emptyStr (envOf
          [AttemptResult.httpError s b0, AttemptResult.httpError s' b1]) =
        ([Effect.req m path, Effect.sleep 2, Effect.req m path], RetryOutcome.httpRaise s'))
    ∧ (∀ path body rest,
      request_with_retry mPOST path emptyStr (envOf
          (AttemptResult.httpError 409 (some body) :: rest)) =
        ([Effect.req mPOST path], RetryOutcome.ok body))
    ∧ (∀ path rest,
      request_with_retry mPOST path emptyStr (envOf
          ((AttemptResult.httpError 409 none : AttemptResult String) :: rest)) =
        ([Effect.req mPOST path], RetryOutcome.ok emptyStr))
    ∧ (∀ m path s b0 rest, s ≠ 429 → ¬(500 ≤ s ∧ s < 600) → ¬(s = 409 ∧ m = mPOST) →
      request_with_retry m path emptyStr (envOf
          ((AttemptResult.httpError s b0 : AttemptResult String) :: rest)) =
        ([Effect.req m path], RetryOutcome.httpRaise s))
    ∧ (∀ m path body rest,
      request_with_retry m path emptyStr (envOf
          (AttemptResult.netError :: AttemptResult.netError :: AttemptResult.netError ::
           AttemptResult.success body :: rest)) =
        ([Effect.req m path, Effect.sleep 1, Effect.req m path, Effect.sleep 2,
          Effect.req m path, Effect.sleep 4, Effect.req m path], RetryOutcome.ok body))
    ∧ (∀ m path rest,
      request_with_retry m path emptyStr (envOf
          ((AttemptResult.netError : AttemptResult String) :: AttemptResult.netError ::
           AttemptResult.netError :: AttemptResult.netError :: rest)) =
        ([Effect.req m path, Effect.sleep 1, Effect.req m path, Effect.sleep 2,
          Effect.req m path, Effect.sleep 4, Effect.req m path], RetryOutcome.netRaise)) := by
  refine ⟨?_, ?_, ?_, ?_, ?_, ?_, ?_, ?_, ?_⟩
  · intro m path b0 b1 b2 b3
    simp [request_with_retry, retryGo, envOf]
    try norm_num
  · intro m path b0 body rest
    simp [request_with_retry, retryGo, envOf]
    try norm_num
  · intro m path s b0 body rest h5 h6
    have hne : ¬(s = 429) := by omega
    have hr : 500 ≤ s ∧ s < 600 := by omega
    simp [request_with_retry, retryGo, envOf, hne, hr]
  · intro m path s s' b0 b1 h5 h6 h7 h8
    have hne : ¬(s = 429) := by omega
    have hne2 : ¬(s' = 429) := by omega
    have hne3 : ¬(s' = 409) := by omega
    have hr : 500 ≤ s ∧ s < 600 := by omega
    have hr2 : ¬(500 ≤ s' ∧ s' < 600 ∧ (1 : ℕ) = 0) := by omega
    simp [request_with_retry, retryGo, envOf, hne, hne2, hne3, hr, hr2]
  · intro path body rest
    simp [request_with_retry, retryGo, envOf]
  · intro path rest
    simp [request_with_retry, retryGo, envOf]
  · intro m path s b0 rest h1 h2 h3
    have h2a : ¬(500 ≤ s ∧ s < 600 ∧ (0 : ℕ) = 0) := by
      intro hx
      exact h2 ⟨hx.1, hx.2.1⟩
    have himp : 500 ≤ s → 600 ≤ s := by omega
    rcases Decidable.em (s = 409) with h409 | h409
    · have hm : ¬(m = mPOST) := fun hm => h3 ⟨h409, hm⟩
      simp [request_with_retry, retryGo, envOf, h1, h2a, h409, hm, himp]
    · simp [request_with_retry, retryGo, envOf, h1, h2a, h409]
      exact himp
  · intro m path body rest
    simp [request_with_retry, retryGo, envOf]
    try norm_num
  · intro m path rest
    simp [request_with_retry, retryGo, envOf]
    try norm_num

/-- Witness for C8: instantiate every clause at concrete statuses,
methods and bodies. -/
theorem c8_retry_policy_witness :
    (500 : ℕ) ≤ 503 ∧ (503 : ℕ) ≤ 599
    ∧ request_with_retry mGET fillsPath emptyStr (envOf
        (AttemptResult.httpError 503 none :: AttemptResult.success buyStr :: [])) =
      ([Effect.req mGET fillsPath, Effect.sleep 2, Effect.req mGET fillsPath],
       RetryOutcome.ok buyStr)
    ∧ (403 : ℕ) ≠ 429 ∧ ¬((500 : ℕ) ≤ 403 ∧ (403 : ℕ) < 600) ∧ ¬((403 : ℕ) = 409 ∧ mGET = mPOST)
    ∧ request_with_retry mGET fillsPath emptyStr (envOf
        ((AttemptResult.httpError 403 none : AttemptResult String) :: [])) =
      ([Effect.req mGET fillsPath], RetryOutcome.httpRaise 403) := by
  refine ⟨by norm_num, by norm_num, ?_, by norm_num, by norm_num, ?_, ?_⟩
  · exact (c8_retry_policy.2.2.1 mGET fillsPath 503 none buyStr [] (by norm_num) (by norm_num))
  · intro hx
    simp [mGET, mPOST] at hx
  · exact (c8_retry_policy.2.2.2.2.2.2.1 mGET fillsPath 403 none [] (by norm_num)
      (by norm_num) (fun hx => by simp [mGET, mPOST] at hx))

/-- Helper: the double 0.545 times 100 rounds to 55 cents (the float
product lies strictly above 54.5), while truncation would give 54. -/
lemma price_to_cents_f545 : price_to_cents f545 = 55 := by
  norm_num [price_to_cents, f64mul, f545, roundF64, log2Up, log2Down, pyRound, abs_of_nonneg]

lemma floor_cents_f545 : ⌊f64mul f545 100⌋ = 54 := by
  norm_num [f64mul, f545, roundF64, log2Up, log2Down, pyRound, abs_of_nonneg]

/-- Helper: the double 0.005 times 100 is exactly 0.5 and banker's
rounding gives 0 cents. -/
lemma price_to_cents_f005 : price_to_cents f005 = 0 := by
  norm_num [price_to_cents, f64mul, f005, roundF64, log2Up, log2Down, pyRound, abs_of_nonneg]

/-- Helper: the double 0.995 times 100 is exactly 99.5 and banker's
rounding gives 100 cents. -/
lemma price_to_cents_f995 : price_to_cents f995 = 100 := by
  norm_num [price_to_cents, f64mul, f995, roundF64, log2Up, log2Down, pyRound, abs_of_nonneg]

/-- Helper: every run of the retry loop begins with the HTTP request. -/
lemma retryGo_head (m path : String) (mr : ℕ) (e : β) (env : ℕ → AttemptResult β)
    (attempt fuel : ℕ) :
    (retryGo m path mr e env attempt (fuel + 1)).1.head? = some (Effect.req m path) := by
  unfold retryGo
  dsimp only
  repeat' split
  all_goals simp_all

/-- C7: limit-order price conversion rounds the float product price*100
to the nearest cent with Python round (banker's rounding, never
truncation): the double 0.545 gives 55 cents though truncation would
give 54; 0.005 (0 cents) and 0.995 (100 cents) are refused before any
request is issued; in general a limit order is refused without touching
the HTTP layer exactly when the rounded cents fall outside 1..99, and
otherwise the body sent carries those cents on the chosen side only. -/
theorem c7_price_rounding :
    price_to_cents f545 = 55 ∧ ⌊f64mul f545 100⌋ = 54
    ∧ kalshi_place_order false tkA TradeSide.yes buyStr 1 OrderType.limit (some f005)
        none none false false none tidA 0 envNet =
      { sent := none, effects := [], result := Except.error priceRangeErr }
    ∧ kalshi_place_order false tkA TradeSide.yes buyStr 1 OrderType.limit (some f995)
        none none false false none tidA 0 envNet =
      { sent := none, effects := [], result := Except.error priceRangeErr }
    ∧ (∀ (tk : String) (side : TradeSide) (act : String) (qty : ℕ) (p : ℚ)
        (tif : Option String) (po ro : Bool) (exp : Option ℤ) (cid : String) (now : ℤ)
        (env : ℕ → AttemptResult (Option String)),
        (price_to_cents p < 1 ∨ 99 < price_to_cents p →
          kalshi_place_order false tk side act qty OrderType.limit (some p)
              none tif po ro exp cid now env =
            { sent := none, effects := [], result := Except.error priceRangeErr })
        ∧ (1 ≤ price_to_cents p → price_to_cents p ≤ 99 →
            (kalshi_place_order false tk side act qty OrderType.limit (some p)
                none tif po ro exp cid now env).sent =
              some { ticker := tk
                     client_order_id := cid
                     side := side.str
                     action := act
                     count := qty
                     type := OrderType.limit.str
                     yes_price := if side = TradeSide.yes then some (price_to_cents p) else none
                     no_price := if side = TradeSide.yes then none else some (price_to_cents p)
                     time_in_force := tif
                     post_only := if po then some true else none
                     reduce_only := if ro then some true else none
                     expiration_ts := exp }
            ∧ (kalshi_place_order false tk side act qty OrderType.limit (some p)
                none tif po ro exp cid now env).effects.head? =
              some (Effect.req mPOST ordersPath))) := by
  refine ⟨price_to_cents_f545, floor_cents_f545, ?_, ?_, ?_⟩
  · have h := price_to_cents_f005
    simp [kalshi_place_order, h]
  · have h := price_to_cents_f995
    simp [kalshi_place_order, h]
  · intro tk side act qty p tif po ro exp cid now env
    constructor
    · intro hrange
      have hr : price_to_cents p < 1 ∨ 99 < price_to_cents p := hrange
      unfold kalshi_place_order
      simp only [if_neg, Bool.false_eq_true, if_false, reduceIte]
      rw [if_pos hr]
    · intro h1 h99
      have hr : ¬(price_to_cents p < 1 ∨ 99 < price_to_cents p) := by omega
      unfold kalshi_place_order
      simp only [if_neg, Bool.false_eq_true, if_false, reduceIte]
      rw [if_neg hr]
      rcases Decidable.em (side = TradeSide.yes) with hs | hs <;>
        simp only [hs, if_pos, if_neg, reduceIte] <;>
        constructor <;>
        first
          | (split <;> rfl)
          | (apply retryGo_head)
          | (split <;> simp [request_with_retry] <;> apply retryGo_head)

/-- Witness for C7: a YES limit order at the double 0.545 is sent with
yes_price 55 (and no no_price), via one POST to the orders path. -/
theorem c7_price_rounding_witness :
    (1 ≤ price_to_cents f545 ∧ price_to_cents f545 ≤ 99)
    ∧ (kalshi_place_order false tkA TradeSide.yes buyStr 7 OrderType.limit (some f545)
          none none false false none tidA 0 envNet).sent =
        some { ticker := tkA
               client_order_id := tidA
               side := TradeSide.yes.str
               action := buyStr
               count := 7
               type := OrderType.limit.str
               yes_price := if TradeSide.yes = TradeSide.yes then some (price_to_cents f545) else none
               no_price := if TradeSide.yes = TradeSide.yes then none else some (price_to_cents f545)
               time_in_force := none
               post_only := none
               reduce_only := none
               expiration_ts := none }
    ∧ (kalshi_place_order false tkA TradeSide.yes buyStr 7 OrderType.limit (some f545)
          none none false false none tidA 0 envNet).effects.head? =
        some (Effect.req mPOST ordersPath) := by
  have h55 := price_to_cents_f545
  have h1 : 1 ≤ price_to_cents f545 := by rw [h55]; norm_num
  have h99 : price_to_cents f545 ≤ 99 := by rw [h55]; norm_num
  have hgen := (c7_price_rounding.2.2.2.2 tkA TradeSide.yes buyStr 7 f545
    none false false none tidA 0 envNet).2 h1 h99
  exact ⟨⟨h1, h99⟩, hgen.1, hgen.2⟩

/-- C6 counterexample: with bankroll 10000 and default parameters the
sizing function ignores the claimed [0.005 bankroll, 0.02 bankroll]
clamp: a tiny edge of 0.001 at price 0.50 yields 10 contracts, below the
claimed floor of 50 dollars / 0.50 = 100 contracts, and an edge of 0.20
at price 0.75 yields 888 contracts, above the claimed ceiling of
200 dollars / 0.75 = 266 contracts. -/
theorem c6_sizing_counterexample :
    calculate_position_size hctDefaults (1/1000) 10000 (1/2) = 10
    ∧ (10 : ℤ) < ⌊(50 : ℚ) / (1/2)⌋
    ∧ calculate_position_size hctDefaults (2/10) 10000 (3/4) = 888
    ∧ ⌊(200 : ℚ) / (3/4)⌋ < (888 : ℤ) := by
  refine ⟨?_, by norm_num, ?_, by norm_num⟩
  · norm_num [calculate_position_size, hctDefaults]
  · norm_num [calculate_position_size, hctDefaults]

/-- C6 amended: sizing is fractional Kelly with the configured
kelly_fraction (default 0.25, not 0.15), a halving when
market_price/(1-market_price) exceeds 5, no clamp of the dollar
allocation, quantity = floor(dollars/price) with minimum 1, and 0 when
the edge is nonpositive or the price is outside (0,1). -/
theorem c6_sizing_amended :
    (∀ (P : StrategyParams) (edge bankroll mp : ℚ),
      calculate_position_size P edge bankroll mp =
        if edge ≤ 0 ∨ mp ≤ 0 ∨ 1 ≤ mp then 0
        else max 1 ⌊bankroll * (edge / mp * P.kelly_fraction *
          (if 5 < mp / (1 - mp) then 1/2 else 1)) / mp⌋)
    ∧ (∀ (P : StrategyParams) (edge bankroll mp : ℚ), 0 < edge → 0 < mp → mp < 1 →
        1 ≤ calculate_position_size P edge bankroll mp) := by
  constructor
  · intro P edge bankroll mp
    unfold calculate_position_size
    by_cases h : edge ≤ 0 ∨ mp ≤ 0 ∨ 1 ≤ mp
    · simp [h]
    · simp only [h, if_false, reduceIte]
      by_cases hrr : 5 < mp / (1 - mp)
      · simp [hrr]
      · simp [hrr]
  · intro P edge bankroll mp h1 h2 h3
    unfold calculate_position_size
    have h : ¬(edge ≤ 0 ∨ mp ≤ 0 ∨ 1 ≤ mp) := by
      push_neg
      exact ⟨h1, h2, h3⟩
    simp only [h, if_false, reduceIte]
    split <;> exact le_max_left 1 _

/-- Witness for the amended C6 at edge 0.001, bankroll 10000, price 0.5. -/
theorem c6_sizing_amended_witness :
    (0 : ℚ) < 1/1000 ∧ (0 : ℚ) < 1/2 ∧ (1/2 : ℚ) < 1
    ∧ 1 ≤ calculate_position_size hctDefaults (1/1000) 10000 (1/2) :=
  ⟨by norm_num, by norm_num, by norm_num,
    c6_sizing_amended.2 hctDefaults (1/1000) 10000 (1/2)
      (by norm_num) (by norm_num) (by norm_num)⟩

/-- Helper: the probability the pipeline computes on the oracleLow
fixture is the oracle's constant 1 percent (inside the clamp). -/
lemma c4ptrue_val : c4ptrue = 1/100 := by
  norm_num [c4ptrue, probability_closed_form, c4volTotal, c4Tyears, ewma_volatility,
    logReturns, sortByTime, insertByTime, listDiff, momentum_drift, latestTime, listMean,
    oracleLow, hctDefaults, c4mktNo, c4mktCheap, c4hist, Market.time_remaining]

/-- C4 counterexample: on a market whose NO side qualifies under the
spec's two-sided rule ((1 - p_true) = 0.99 at least 0.95, NO edge
0.99 - 0.03 = 0.96 at least 0.05, every earlier gate passing), analyze
emits nothing at all: the code gates on p_true against min_probability
and only ever builds YES signals. -/
theorem c4_no_side_counterexample :
    analyze oracleLow hctDefaults 0 c4mktNo 100 c4hist none = none
    ∧ c4mktNo.no_price = some (3/100)
    ∧ 95/100 ≤ (1 : ℚ) - c4ptrue
    ∧ 5/100 ≤ ((1 : ℚ) - c4ptrue) - 3/100 := by
  refine ⟨?_, rfl, ?_, ?_⟩
  · norm_num [analyze, Market.is_tradeable, Market.time_remaining, probability_closed_form,
      ewma_volatility, logReturns, sortByTime, insertByTime, listDiff, momentum_drift,
      latestTime, listMean, detect_volatility_spike, oracleLow, hctDefaults,
      c4mktNo, c4mktCheap, c4hist]
  · rw [c4ptrue_val]
    norm_num
  · rw [c4ptrue_val]
    norm_num

/-- C4 amended: the strategy is one-sided.  Whenever analyze emits a
signal it is a YES signal whose computed probability reached
min_probability (default 0.90, not 0.95) and whose edge
p_true - yes_price reached min_edge (0.05); no NO candidate exists and
no NO signal is ever emitted, whatever the inputs. -/
theorem c4_yes_only_amended (O : NumOracle) (P : StrategyParams) (now : ℚ) (mkt : Market)
    (S0 : ℚ) (hist : List PricePoint) (ob : Option Orderbook) (s : StrategySignal)
    (h : analyze O P now mkt S0 hist ob = some s) :
    s.direction = SignalDirection.yes
    ∧ P.min_probability ≤ s.true_probability
    ∧ s.edge = s.true_probability - s.market_probability
    ∧ P.min_edge ≤ s.edge
    ∧ mkt.yes_price = some s.market_probability := by
  unfold analyze at h
  repeat' split at h
  all_goals try exact Option.noConfusion h
  all_goals try (apply absurd h ; simp ; done)
  generalize hV : ewma_volatility O P hist = V at h
  generalize hmu : momentum_drift O P hist = mu at h
  try dsimp only at h
  repeat' split at h
  all_goals try exact Option.noConfusion h
  all_goals (injection h with h2 ; subst h2 ; simp_all [create_signal, not_lt])

/-- Witness for the amended C4: a concrete emission.  With the
99-percent oracle on the 50/50 market, analyze emits exactly c4sig, a
YES signal with probability 0.99 and edge 0.49. -/
theorem c4_yes_only_amended_witness :
    analyze oracleHigh hctDefaults 0 c4mktCheap 100 c4hist none = some c4sig
    ∧ (c4sig.direction = SignalDirection.yes
      ∧ hctDefaults.min_probability ≤ c4sig.true_probability
      ∧ c4sig.edge = c4sig.true_probability - c4sig.market_probability
      ∧ hctDefaults.min_edge ≤ c4sig.edge
      ∧ c4mktCheap.yes_price = some c4sig.market_probability) := by
  have h : analyze oracleHigh hctDefaults 0 c4mktCheap 100 c4hist none = some c4sig := by
    norm_num [analyze, Market.is_tradeable, Market.time_remaining, probability_closed_form,
      ewma_volatility, logReturns, sortByTime, insertByTime, listDiff, momentum_drift,
      latestTime, listMean, detect_volatility_spike, calculate_position_size,
      categorize_strength, get_optimal_price, create_signal, oracleHigh, hctDefaults,
      c4mktCheap, c4hist, c4sig]
  exact ⟨h, c4_yes_only_amended oracleHigh hctDefaults 0 c4mktCheap 100 c4hist none c4sig h⟩

/-- C5 counterexample: the default time gate is [90 s, 840 s], not
[30 s, 600 s].  A market with 30 s remaining — all other gate inputs
passing, as the same inputs with 600 s remaining produce a signal —
yields no signal, and 30 fails the time-gate predicate. -/
theorem c5_time_gate_counterexample :
    analyze oracleHigh hctDefaults 0 c5mkt30 100 c4hist none = none
    ∧ (analyze oracleHigh hctDefaults 0 c5mkt600 100 c4hist none).isSome = true
    ∧ time_gate_ok hctDefaults 30 = false
    ∧ Market.time_remaining c5mkt30 0 = 30 := by
  refine ⟨?_, ?_, ?_, ?_⟩
  · norm_num [analyze, Market.is_tradeable, Market.time_remaining, hctDefaults,
      c5mkt30, c4mktCheap]
  · norm_num [analyze, Market.is_tradeable, Market.time_remaining, probability_closed_form,
      ewma_volatility, logReturns, sortByTime, insertByTime, listDiff, momentum_drift,
      latestTime, listMean, detect_volatility_spike, calculate_position_size,
      categorize_strength, get_optimal_price, create_signal, oracleHigh, hctDefaults,
      c5mkt600, c4mktCheap, c4hist]
  · norm_num [time_gate_ok, hctDefaults]
  · norm_num [Market.time_remaining, c5mkt30, c4mktCheap]

/-- C5 amended: with the default parameters the time window is
[90 s, 840 s]: analyze returns none whenever the time to window end is
below min_time_remaining or above max_time_remaining; 29 s and 89 s
fail the gate, 90 s, 600 s and 840 s pass it, 841 s fails it. -/
theorem c5_time_window_amended :
    (∀ (O : NumOracle) (P : StrategyParams) (now : ℚ) (mkt : Market) (S0 : ℚ)
        (hist : List PricePoint) (ob : Option Orderbook),
      mkt.time_remaining now < P.min_time_remaining ∨
        P.max_time_remaining < mkt.time_remaining now →
      analyze O P now mkt S0 hist ob = none)
    ∧ time_gate_ok hctDefaults 29 = false
    ∧ time_gate_ok hctDefaults 89 = false
    ∧ time_gate_ok hctDefaults 90 = true
    ∧ time_gate_ok hctDefaults 600 = true
    ∧ time_gate_ok hctDefaults 840 = true
    ∧ time_gate_ok hctDefaults 841 = false := by
  refine ⟨?_, ?_, ?_, ?_, ?_, ?_, ?_⟩
  · intro O P now mkt S0 hist ob h
    unfold analyze
    by_cases ht : mkt.is_tradeable now
    · rcases h with h | h
      · simp [ht, h]
      · by_cases h1 : mkt.time_remaining now < P.min_time_remaining
        · simp [ht, h1]
        · simp [ht, h1, h]
    · simp [ht]
  · norm_num [time_gate_ok, hctDefaults]
  · norm_num [time_gate_ok, hctDefaults]
  · norm_num [time_gate_ok, hctDefaults]
  · norm_num [time_gate_ok, hctDefaults]
  · norm_num [time_gate_ok, hctDefaults]
  · norm_num [time_gate_ok, hctDefaults]

/-- Witness for the amended C5 at the 30-second market. -/
theorem c5_time_window_amended_witness :
    (Market.time_remaining c5mkt30 0 < hctDefaults.min_time_remaining ∨
      hctDefaults.max_time_remaining < Market.time_remaining c5mkt30 0)
    ∧ analyze oracleHigh hctDefaults 0 c5mkt30 100 c4hist none = none :=
  ⟨Or.inl (by norm_num [Market.time_remaining, c5mkt30, c4mktCheap, hctDefaults]),
    c5_time_window_amended.1 oracleHigh hctDefaults 0 c5mkt30 100 c4hist none
      (Or.inl (by norm_num [Market.time_remaining, c5mkt30, c4mktCheap, hctDefaults]))⟩

/-- Helper: the retry loop only ever issues requests with its own
method. -/
lemma retryGo_effects_from (m path : String) (mr : ℕ) (e : β) (env : ℕ → AttemptResult β) :
    ∀ fuel attempt, ((retryGo m path mr e env attempt fuel).1.all (effectFrom m)) = true := by
  intro fuel
  induction fuel with
  | zero => intro attempt; rfl
  | succ n ih =>
      intro attempt
      unfold retryGo
      dsimp only
      split
      · simp [effectFrom]
      · split
        · simp [effectFrom, ih]
        · split
          · simp [effectFrom, ih]
          · split <;> simp [effectFrom]
      · split
        · simp [effectFrom, ih]
        · simp [effectFrom]

/-- Helper: a GET request trace contains no mutation. -/
lemma get_trace_allReads (path : String) (e : β) (env : ℕ → AttemptResult β) :
    allReads (request_with_retry mGET path e env).1 = true := by
  have h := retryGo_effects_from mGET path 3 e env 4 0
  rw [allReads, List.all_eq_true]
  rw [List.all_eq_true] at h
  intro x hx
  have := h x hx
  cases x with
  | req m2 p2 =>
      simp [effectFrom] at this
      simp [Effect.isMutation, this, mGET]
  | sleep q => simp [Effect.isMutation]

/-- Helper: kalshi_get_market only reads. -/
lemma kalshi_get_market_allReads (ticker : String) (env : ℕ → AttemptResult Market) :
    allReads (kalshi_get_market ticker env).1 = true := by
  unfold kalshi_get_market
  dsimp only
  split <;>
    (rename_i heq
     have h := get_trace_allReads (β := Market) (marketPath ticker) defaultMarket env
     rw [show (request_with_retry mGET (marketPath ticker) defaultMarket env).1 = _ from
        congrArg Prod.fst heq] at h
     exact h)

/-- Helper: in dry-run mode a single cancel issues nothing and keeps the
dry-run flag. -/
lemma om_cancel_order_dry (st : OMState) (now : ℤ) (tid : String)
    (env : ℕ → AttemptResult Unit) (h : st.dry_run = true) :
    (om_cancel_order st now tid env).2.1 = []
    ∧ (om_cancel_order st now tid env).1.dry_run = true := by
  unfold om_cancel_order kalshi_cancel_order
  split
  · exact ⟨rfl, h⟩
  · split
    · exact ⟨rfl, h⟩
    · split
      · exact ⟨rfl, h⟩
      · rw [h]
        dsimp only
        refine ⟨rfl, ?_⟩
        simp only [move_to_completed, sync_open_count, set_open_orders_count]
        split <;> rfl

/-- Helper: the stale sweep in dry-run mode issues nothing. -/
lemma cancel_stale_orders_dry_aux (now : ℤ) (envs : ℕ → ℕ → AttemptResult Unit) :
    ∀ (l : List (ℕ × String × Trade)) (acc : OMState × List Effect),
      acc.1.dry_run = true →
      (l.foldl
        (fun (acc : OMState × List Effect) ip =>
          let trade := ip.2.2
          if trade.status ≠ TradeStatus.submitted then acc
          else
            let age := now - (trade.submitted_at.getD trade.created_at)
            if staleOrderSeconds < age then
              let c := om_cancel_order acc.1 now ip.2.1 (envs ip.1)
              (c.1, acc.2 ++ c.2.1)
            else acc) acc).2 = acc.2
      ∧ (l.foldl
        (fun (acc : OMState × List Effect) ip =>
          let trade := ip.2.2
          if trade.status ≠ TradeStatus.submitted then acc
          else
            let age := now - (trade.submitted_at.getD trade.created_at)
            if staleOrderSeconds < age then
              let c := om_cancel_order acc.1 now ip.2.1 (envs ip.1)
              (c.1, acc.2 ++ c.2.1)
            else acc) acc).1.dry_run = true := by
  intro l
  induction l with
  | nil => intro acc h; exact ⟨rfl, h⟩
  | cons a rest ih =>
      intro acc h
      rw [List.foldl_cons]
      dsimp only
      by_cases h1 : a.2.2.status ≠ TradeStatus.submitted
      · rw [if_pos h1]
        exact ih acc h
      · rw [if_neg h1]
        by_cases h2 : staleOrderSeconds < now - (a.2.2.submitted_at.getD a.2.2.created_at)
        · rw [if_pos h2]
          have hc := om_cancel_order_dry acc.1 now a.2.1 (envs a.1) h
          have hrec := ih ((om_cancel_order acc.1 now a.2.1 (envs a.1)).1,
            acc.2 ++ (om_cancel_order acc.1 now a.2.1 (envs a.1)).2.1) hc.2
          refine ⟨hrec.1.trans ?_, hrec.2⟩
          rw [hc.1]
          simp
        · rw [if_neg h2]
          exact ih acc h

/-- Helper: one settle iteration appends exactly the market-fetch trace. -/
lemma settle_step_snd (now : ℤ) (menv : String → ℕ → AttemptResult Market)
    (acc : OMState × List Effect) (p : String × Position) :
    (settle_step now menv acc p).2 = acc.2 ++ (kalshi_get_market p.1 (menv p.1)).1 := by
  unfold settle_step
  dsimp only
  repeat' split
  all_goals rfl

/-- Helper: the paper settlement scan only reads. -/
lemma settle_paper_positions_allReads (st : OMState) (now : ℤ)
    (menv : String → ℕ → AttemptResult Market) :
    allReads (settle_paper_positions st now menv).2 = true := by
  unfold settle_paper_positions
  suffices h : ∀ (l : List (String × Position)) (acc : OMState × List Effect),
      allReads acc.2 = true →
      allReads (List.foldl (settle_step now menv) acc l).2 = true by
    exact h st.risk.positions (st, []) rfl
  intro l
  induction l with
  | nil => intro acc h; exact h
  | cons a rest ih =>
      intro acc h
      rw [List.foldl_cons]
      apply ih
      rw [settle_step_snd, allReads, List.all_append]
      have hm := kalshi_get_market_allReads a.1 (menv a.1)
      rw [allReads] at hm h
      rw [h, hm]
      rfl

/-- Helper: in dry-run mode the fills reconciliation is the read-only
paper settlement scan. -/
lemma reconcile_fills_dry_allReads (st : OMState) (now : ℤ)
    (menv : String → ℕ → AttemptResult Market) (fenv : ℕ → AttemptResult (List Fill))
    (h : st.dry_run = true) :
    allReads (reconcile_fills st now menv fenv).2 = true := by
  unfold reconcile_fills
  rw [if_pos h]
  exact settle_paper_positions_allReads st now menv

/-- Helper: in dry-run mode signal execution issues no requests. -/
lemma execute_signal_dry (st : OMState) (now today : ℤ) (signal : StrategySignal)
    (tid cid : String) (env : ℕ → AttemptResult (Option String))
    (h : st.dry_run = true) :
    (execute_signal st now today signal tid cid env).2.1 = [] := by
  unfold execute_signal
  split
  · rfl
  · split
    · rfl
    · dsimp only
      split
      · rfl
      · simp [kalshi_place_order, h]

/-- Helper: in dry-run mode cancel_all issues no requests. -/
lemma om_cancel_all_dry (st : OMState) (now : ℤ) (envs : ℕ → ℕ → AttemptResult Unit)
    (h : st.dry_run = true) :
    (om_cancel_all_orders st now envs).2.1 = [] := by
  unfold om_cancel_all_orders
  dsimp only
  have hr : ((st.active_orders.map (fun p => p.2)).filterMap
      (fun t => if t.order_id.isSome && !st.dry_run then t.order_id else none)) = [] := by
    rw [h]
    simp
  rw [hr]
  simp [chunks20]

/-- Helper: in dry-run mode the status poll is the pure paper-fill
simulation and issues no requests. -/
lemma poll_active_orders_dry (st : OMState) (now today : ℤ)
    (senv : String → ℕ → AttemptResult OrderStatusData) (h : st.dry_run = true) :
    (poll_active_orders st now today senv).2 = [] := by
  unfold poll_active_orders
  rw [if_pos h]

/-- Helper: in dry-run mode the stale-order sweep issues no requests. -/
lemma cancel_stale_orders_dry (st : OMState) (now : ℤ)
    (envs : ℕ → ℕ → AttemptResult Unit) (h : st.dry_run = true) :
    (cancel_stale_orders st now envs).2 = [] := by
  unfold cancel_stale_orders
  exact (cancel_stale_orders_dry_aux now envs st.active_orders.enum (st, []) h).1

/-- C2: with dry_run = true no order-mutating exchange request is ever
issued.  Every mutating client call (place, cancel, amend, decrease,
batch create, batch cancel) returns its stub with an empty request
trace and, for place_order, no body handed to the HTTP layer; the order
manager's execution, single and bulk cancellation, stale-order sweep and
status poll issue no request at all, and the paper-settlement scan
inside fills reconciliation performs only GET reads. -/
theorem c2_dry_run_no_mutations :
    (∀ (tk : String) (side : TradeSide) (act : String) (qty : ℕ) (ot : OrderType)
        (price : Option ℚ) (bmc : Option ℤ) (tif : Option String) (po ro : Bool)
        (exp : Option ℤ) (cid : String) (now : ℤ) (env : ℕ → AttemptResult (Option String)),
      (kalshi_place_order true tk side act qty ot price bmc tif po ro exp cid now env).sent = none
      ∧ (kalshi_place_order true tk side act qty ot price bmc tif po ro exp cid now env).effects = [])
    ∧ (∀ (oid : String) (env : ℕ → AttemptResult Unit),
        kalshi_cancel_order true oid env = ([], Except.ok ()))
    ∧ (∀ (oid t sd act : String) (yp np : Option ℤ) (cnt : Option ℕ)
        (env : ℕ → AttemptResult (Option String)),
        kalshi_amend_order true oid t sd act yp np cnt env = ([], Except.ok none))
    ∧ (∀ (oid : String) (rb rt : Option ℕ) (env : ℕ → AttemptResult Unit),
        (kalshi_decrease_order true oid rb rt env).1 = [])
    ∧ (∀ (orders : List OrderBody) (env : ℕ → AttemptResult Unit),
        (kalshi_batch_create_orders true orders env).1 = [])
    ∧ (∀ (ids : List String) (env : ℕ → AttemptResult Unit),
        (kalshi_batch_cancel_orders true ids env).1 = [])
    ∧ (∀ (st : OMState) (now today : ℤ) (signal : StrategySignal) (tid cid : String)
        (env : ℕ → AttemptResult (Option String)), st.dry_run = true →
        (execute_signal st now today signal tid cid env).2.1 = [])
    ∧ (∀ (st : OMState) (now : ℤ) (tid : String) (env : ℕ → AttemptResult Unit),
        st.dry_run = true → (om_cancel_order st now tid env).2.1 = [])
    ∧ (∀ (st : OMState) (now : ℤ) (envs : ℕ → ℕ → AttemptResult Unit),
        st.dry_run = true → (om_cancel_all_orders st now envs).2.1 = [])
    ∧ (∀ (st : OMState) (now : ℤ) (envs : ℕ → ℕ → AttemptResult Unit),
        st.dry_run = true → (cancel_stale_orders st now envs).2 = [])
    ∧ (∀ (st : OMState) (now today : ℤ) (senv : String → ℕ → AttemptResult OrderStatusData),
        st.dry_run = true → (poll_active_orders st now today senv).2 = [])
    ∧ (∀ (st : OMState) (now : ℤ) (menv : String → ℕ → AttemptResult Market)
        (fenv : ℕ → AttemptResult (List Fill)), st.dry_run = true →
        allReads (reconcile_fills st now menv fenv).2 = true) := by
  refine ⟨?_, ?_, ?_, ?_, ?_, ?_, ?_, ?_, ?_, ?_, ?_, ?_⟩
  · intro tk side act qty ot price bmc tif po ro exp cid now env
    exact ⟨rfl, rfl⟩
  · intro oid env
    rfl
  · intro oid t sd act yp np cnt env
    rfl
  · intro oid rb rt env
    rfl
  · intro orders env
    unfold kalshi_batch_create_orders
    split <;> rfl
  · intro ids env
    unfold kalshi_batch_cancel_orders
    split <;> rfl
  · intro st now today signal tid cid env h
    exact execute_signal_dry st now today signal tid cid env h
  · intro st now tid env h
    exact (om_cancel_order_dry st now tid env h).1
  · intro st now envs h
    exact om_cancel_all_dry st now envs h
  · intro st now envs h
    exact cancel_stale_orders_dry st now envs h
  · intro st now today senv h
    exact poll_active_orders_dry st now today senv h
  · intro st now menv fenv h
    exact reconcile_fills_dry_allReads st now menv fenv h

/-- Witness for C2 on the concrete dry-run fixture: the paper manager
with one active order and one open position issues nothing on the
execution, cancellation, sweep and poll paths, and only GET traffic in
the settlement scan. -/
theorem c2_dry_run_no_mutations_witness :
    omDry.dry_run = true
    ∧ (execute_signal omDry 0 20000 c4sig tidA oidA envNet).2.1 = []
    ∧ (om_cancel_order omDry 0 tidA envNet).2.1 = []
    ∧ (om_cancel_all_orders omDry 0 envsNet).2.1 = []
    ∧ (cancel_stale_orders omDry 0 envsNet).2 = []
    ∧ (poll_active_orders omDry 0 20000 senvNet).2 = []
    ∧ allReads (reconcile_fills omDry 0 menvNet fenvNet).2 = true :=
  ⟨rfl,
    c2_dry_run_no_mutations.2.2.2.2.2.2.1 omDry 0 20000 c4sig tidA oidA envNet rfl,
    c2_dry_run_no_mutations.2.2.2.2.2.2.2.1 omDry 0 tidA envNet rfl,
    c2_dry_run_no_mutations.2.2.2.2.2.2.2.2.1 omDry 0 envsNet rfl,
    c2_dry_run_no_mutations.2.2.2.2.2.2.2.2.2.1 omDry 0 envsNet rfl,
    c2_dry_run_no_mutations.2.2.2.2.2.2.2.2.2.2.1 omDry 0 20000 senvNet rfl,
    c2_dry_run_no_mutations.2.2.2.2.2.2.2.2.2.2.2 omDry 0 menvNet fenvNet rfl⟩
